import Mathlib

/-!
Verification development for the flask-property-management repository.

The repository is a small Flask + PostgreSQL CRUD backend over two tables
(`users`, `properties`).  This file gives a shallow embedding of the parts of
the code the specification's claims are about:

* a JSON value type together with a serializer and parser modelling Python's
  `json.dumps` / `json.loads` (used by `app/property.py` for the
  `rooms_details` column; numbers are modelled as integers, and the
  serializer renders non-ASCII characters literally rather than
  `\uXXXX`-escaping them, which does not affect any round-trip behaviour);
* the identity extractor `get_current_user_id` (reading `X-User-Id`);
* the row serializer `_serialize_property` and the shared payload routine
  `_extract_property_payload`;
* the user handlers (`create_user`, `get_user`, `update_user`) and the
  property handlers (`list_properties`, `retrieve_property`,
  `create_property`, `update_property`, `delete_property`), each as a pure
  function from a database state (plus request data) to a new state and an
  HTTP response.

Request bodies are modelled as JSON objects (`Option` for an absent or
unparseable body), matching what `request.get_json` hands the handlers on
the flows the claims speak about.
-/

namespace PropMgmt

/-- JSON values as produced by `request.get_json` and `json.loads`.
Numbers are modelled as integers (no claim depends on float payloads). -/
inductive Json where
  | null : Json
  | bool : Bool → Json
  | num : Int → Json
  | str : String → Json
  | arr : List Json → Json
  | obj : List (String × Json) → Json

/-- The character the source writes as an opening curly brace. -/
def lbrace : Char := Char.ofNat 123

/-- The character the source writes as a closing curly brace. -/
def rbrace : Char := Char.ofNat 125

/-- Decimal digit to character, as in Python's number formatting. -/
def digChar (d : Nat) : Char := Char.ofNat (48 + d)

/-- Decimal digits with an explicit recursion budget (any budget above the
number of digits gives the same answer). -/
def natDigsAux : Nat → Nat → List Char
  | 0, _ => []
  | fuel + 1, n =>
    if n < 10 then [digChar n]
    else natDigsAux fuel (n / 10) ++ [digChar (n % 10)]

/-- Decimal digits of a natural number, most significant first. -/
def natDigs (n : Nat) : List Char := natDigsAux (n + 1) n

/-- Characters of an integer, as `json.dumps` renders it. -/
def intChars (i : Int) : List Char :=
  if i < 0 then '-' :: natDigs i.natAbs else natDigs i.toNat

/-- Lower-case hex digit, as Python's `\u00XX` escapes use. -/
def hexChar (d : Nat) : Char :=
  if d < 10 then Char.ofNat (48 + d) else Char.ofNat (87 + d)

/-- Escape one character inside a JSON string literal, following
`json.dumps`: quote, backslash, the short control escapes, and `\u00XX`
for the remaining control characters. -/
def escChar (c : Char) : List Char :=
  if c = '"' then ['\\', '"']
  else if c = '\\' then ['\\', '\\']
  else if c = '\n' then ['\\', 'n']
  else if c = '\t' then ['\\', 't']
  else if c = '\r' then ['\\', 'r']
  else if c = Char.ofNat 8 then ['\\', 'b']
  else if c = Char.ofNat 12 then ['\\', 'f']
  else if c.toNat < 32 then
    ['\\', 'u', '0', '0', hexChar (c.toNat / 16), hexChar (c.toNat % 16)]
  else [c]

/-- Escape every character of a string body. -/
def escList : List Char → List Char
  | [] => []
  | c :: cs => escChar c ++ escList cs

/-- A JSON string literal: quote, escaped body, quote. -/
def strChars (s : String) : List Char := '"' :: (escList s.data ++ ['"'])

mutual

/-- Characters of `json.dumps` for a JSON value (default separators,
so `", "` between items and `": "` after keys). -/
def render : Json → List Char
  | .null => "null".data
  | .bool true => "true".data
  | .bool false => "false".data
  | .num i => intChars i
  | .str s => strChars s
  | .arr [] => ['[', ']']
  | .arr (e :: es) => '[' :: ((render e ++ renderTail es) ++ [']'])
  | .obj [] => [lbrace, rbrace]
  | .obj (f :: fs) => lbrace :: ((renderField f ++ renderFTail fs) ++ [rbrace])

/-- One `"key": value` pair. -/
def renderField : String × Json → List Char
  | (k, v) => strChars k ++ (':' :: ' ' :: render v)

/-- `", item"` for each further array item. -/
def renderTail : List Json → List Char
  | [] => []
  | e :: es => ',' :: ' ' :: (render e ++ renderTail es)

/-- `", pair"` for each further object member. -/
def renderFTail : List (String × Json) → List Char
  | [] => []
  | f :: fs => ',' :: ' ' :: (renderField f ++ renderFTail fs)

end

/-- `json.dumps`. -/
def dumps (v : Json) : String := String.mk (render v)

/-- The whitespace characters `json.loads` skips. -/
def isWsC (c : Char) : Bool := c = ' ' ∨ c = '\t' ∨ c = '\n' ∨ c = '\r'

/-- Drop leading JSON whitespace. -/
def skipWs : List Char → List Char
  | [] => []
  | c :: cs => if isWsC c then skipWs cs else c :: cs

/-- Numeric value of a decimal digit character. -/
def digVal (c : Char) : Nat := c.toNat - 48

/-- Consume leading decimal digits, accumulating their value. -/
def parseDigitsAcc : Nat → List Char → Nat × List Char
  | acc, [] => (acc, [])
  | acc, c :: cs =>
    if c.isDigit then parseDigitsAcc (acc * 10 + digVal c) cs else (acc, c :: cs)

/-- The integer part of a JSON number: `0`, or a nonzero digit followed by
digits (the grammar `json.loads` uses rejects leading zeros). -/
def natPart : List Char → Option (Nat × List Char)
  | [] => none
  | c :: cs =>
    if c = '0' then some (0, cs)
    else if c.isDigit then some (parseDigitsAcc 0 (c :: cs)) else none

/-- Value of a hex digit character, either case. -/
def hexVal (c : Char) : Option Nat :=
  if '0' ≤ c ∧ c ≤ '9' then some (c.toNat - 48)
  else if 'a' ≤ c ∧ c ≤ 'f' then some (c.toNat - 87)
  else if 'A' ≤ c ∧ c ≤ 'F' then some (c.toNat - 55)
  else none

/-- Parse the body of a JSON string literal up to its closing quote,
handling the escape sequences `json.loads` accepts; literal control
characters are rejected as in strict mode. -/
def parseStrChars : List Char → Option (List Char × List Char)
  | [] => none
  | c :: cs =>
    if c = '"' then some ([], cs)
    else if c = '\\' then
      match cs with
      | [] => none
      | e :: cs2 =>
        if e = '"' then (parseStrChars cs2).map (fun p => ('"' :: p.1, p.2))
        else if e = '\\' then (parseStrChars cs2).map (fun p => ('\\' :: p.1, p.2))
        else if e = '/' then (parseStrChars cs2).map (fun p => ('/' :: p.1, p.2))
        else if e = 'n' then (parseStrChars cs2).map (fun p => ('\n' :: p.1, p.2))
        else if e = 't' then (parseStrChars cs2).map (fun p => ('\t' :: p.1, p.2))
        else if e = 'r' then (parseStrChars cs2).map (fun p => ('\r' :: p.1, p.2))
        else if e = 'b' then (parseStrChars cs2).map (fun p => (Char.ofNat 8 :: p.1, p.2))
        else if e = 'f' then (parseStrChars cs2).map (fun p => (Char.ofNat 12 :: p.1, p.2))
        else if e = 'u' then
          match cs2 with
          | h1 :: h2 :: h3 :: h4 :: cs3 =>
            match hexVal h1, hexVal h2, hexVal h3, hexVal h4 with
            | some a, some b, some c3, some d =>
              let n := ((a * 16 + b) * 16 + c3) * 16 + d
              if Nat.isValidChar n then
                (parseStrChars cs3).map (fun p => (Char.ofNat n :: p.1, p.2))
              else none
            | _, _, _, _ => none
          | _ => none
        else none
    else if c.toNat < 32 then none
    else (parseStrChars cs).map (fun p => (c :: p.1, p.2))

mutual

/-- Parse one JSON value after skipping leading whitespace (fuelled
recursive descent mirroring `json.loads`; integer numbers only). -/
def parseVal : Nat → List Char → Option (Json × List Char)
  | 0, _ => none
  | fuel + 1, cs =>
    match skipWs cs with
    | 'n' :: 'u' :: 'l' :: 'l' :: rest => some (.null, rest)
    | 't' :: 'r' :: 'u' :: 'e' :: rest => some (.bool true, rest)
    | 'f' :: 'a' :: 'l' :: 's' :: 'e' :: rest => some (.bool false, rest)
    | '"' :: rest => (parseStrChars rest).map (fun p => (.str (String.mk p.1), p.2))
    | '-' :: rest => (natPart rest).map (fun p => (.num (-(p.1 : Int)), p.2))
    | '[' :: rest =>
      match skipWs rest with
      | ']' :: rest2 => some (.arr [], rest2)
      | other => (parseItems fuel other).map (fun p => (.arr p.1, p.2))
    | c :: rest =>
      if c = lbrace then
        match skipWs rest with
        | c2 :: rest2 =>
          if c2 = rbrace then some (.obj [], rest2)
          else (parseKVs fuel (c2 :: rest2)).map (fun p => (.obj p.1, p.2))
        | [] => none
      else (natPart (c :: rest)).map (fun p => (.num (p.1 : Int), p.2))
    | [] => none

/-- Parse the items of a nonempty array up to `]`. -/
def parseItems : Nat → List Char → Option (List Json × List Char)
  | 0, _ => none
  | fuel + 1, cs =>
    match parseVal fuel cs with
    | none => none
    | some (v, rest) =>
      match skipWs rest with
      | ',' :: rest2 => (parseItems fuel rest2).map (fun p => (v :: p.1, p.2))
      | ']' :: rest2 => some ([v], rest2)
      | _ => none

/-- Parse the members of a nonempty object up to the closing brace. -/
def parseKVs : Nat → List Char → Option (List (String × Json) × List Char)
  | 0, _ => none
  | fuel + 1, cs =>
    match skipWs cs with
    | '"' :: rest =>
      match parseStrChars rest with
      | none => none
      | some (kcs, rest2) =>
        match skipWs rest2 with
        | ':' :: rest3 =>
          match parseVal fuel rest3 with
          | none => none
          | some (v, rest4) =>
            match skipWs rest4 with
            | ',' :: rest5 =>
              (parseKVs fuel rest5).map (fun p => ((String.mk kcs, v) :: p.1, p.2))
            | c :: rest5 =>
              if c = rbrace then some ([(String.mk kcs, v)], rest5) else none
            | [] => none
        | _ => none
    | _ => none

end

/-- `json.loads`: parse one value, allow trailing whitespace only. -/
def loads (s : String) : Option Json :=
  match parseVal (s.data.length + 1) s.data with
  | some (v, rest) => if skipWs rest = [] then some v else none
  | none => none

example : loads "5" = some (.num 5) := rfl
example : loads "[1, 2]" = some (.arr [.num 1, .num 2]) := rfl
example : loads "not json" = none := rfl
example : loads (dumps (.arr [.num 3, .str "a"])) = some (.arr [.num 3, .str "a"]) := rfl

/-! ### Round-trip of the decimal number rendering -/

theorem natDigsAux_irrel (n : Nat) : ∀ f1 f2 : Nat, n < f1 → n < f2 →
    natDigsAux f1 n = natDigsAux f2 n := by
  induction n using Nat.strong_induction_on with
  | _ n ih =>
    intro f1 f2 h1 h2
    match f1, f2 with
    | g1 + 1, g2 + 1 =>
      by_cases hn : n < 10
      · simp [natDigsAux, hn]
      · have hd : n / 10 < n := Nat.div_lt_self (by omega) (by omega)
        simp only [natDigsAux, if_neg hn]
        rw [ih (n / 10) hd g1 g2 (by omega) (by omega)]

theorem natDigs_eq (n : Nat) : natDigs n =
    if n < 10 then [digChar n] else natDigs (n / 10) ++ [digChar (n % 10)] := by
  by_cases hn : n < 10
  · simp [natDigs, natDigsAux, hn]
  · have hd : n / 10 < n := Nat.div_lt_self (by omega) (by omega)
    rw [if_neg hn]
    show natDigsAux (n + 1) n = _
    have h1 : natDigsAux (n + 1) n = natDigsAux n (n / 10) ++ [digChar (n % 10)] := by
      simp [natDigsAux, hn]
    rw [h1, natDigsAux_irrel (n / 10) n (n / 10 + 1) (by omega) (by omega)]
    rfl

theorem digChar_isDigit : ∀ d : Nat, d < 10 → (digChar d).isDigit = true := by decide

theorem digVal_digChar : ∀ d : Nat, d < 10 → digVal (digChar d) = d := by decide

theorem digChar_ne_zeroChar : ∀ d : Nat, d < 10 → 1 ≤ d → digChar d ≠ '0' := by decide

/-- The continuation after a rendered number may not begin with a digit. -/
def NumSafe : List Char → Prop
  | [] => True
  | c :: _ => c.isDigit = false

theorem natDigs_head (n : Nat) :
    ∃ c cs, natDigs n = c :: cs ∧ c.isDigit = true ∧ (1 ≤ n → c ≠ '0') := by
  induction n using Nat.strong_induction_on with
  | _ n ih =>
    rw [natDigs_eq]
    by_cases hn : n < 10
    · exact ⟨digChar n, [], by simp [hn], digChar_isDigit n hn,
        fun h1 => digChar_ne_zeroChar n hn h1⟩
    · have hd : n / 10 < n := Nat.div_lt_self (by omega) (by omega)
      obtain ⟨c, cs, hrep, hdig, hz⟩ := ih (n / 10) hd
      exact ⟨c, cs ++ [digChar (n % 10)], by simp [hn, hrep], hdig,
        fun _ => hz (by omega)⟩

theorem parseDigitsAcc_natDigs (n : Nat) : ∀ acc r,
    parseDigitsAcc acc (natDigs n ++ r) =
      parseDigitsAcc (acc * 10 ^ (natDigs n).length + n) r := by
  induction n using Nat.strong_induction_on with
  | _ n ih =>
    intro acc r
    rw [natDigs_eq]
    by_cases hn : n < 10
    · simp only [if_pos hn, List.cons_append, List.nil_append, List.length_cons,
        List.length_nil, parseDigitsAcc, digChar_isDigit n hn, if_true]
      rw [digVal_digChar n hn]
      norm_num
    · have hd : n / 10 < n := Nat.div_lt_self (by omega) (by omega)
      have hm : n % 10 < 10 := Nat.mod_lt _ (by omega)
      simp only [if_neg hn, List.append_assoc, List.cons_append, List.nil_append,
        List.length_append, List.length_cons, List.length_nil]
      rw [ih (n / 10) hd acc (digChar (n % 10) :: r)]
      simp only [parseDigitsAcc, digChar_isDigit _ hm, if_true]
      rw [digVal_digChar _ hm]
      have harith : (acc * 10 ^ (natDigs (n / 10)).length + n / 10) * 10 + n % 10 =
          acc * 10 ^ ((natDigs (n / 10)).length + 1) + n := by
        rw [pow_succ, ← mul_assoc]; omega
      rw [harith]

theorem parseDigitsAcc_stop (acc : Nat) (r : List Char) (h : NumSafe r) :
    parseDigitsAcc acc r = (acc, r) := by
  match r with
  | [] => rfl
  | c :: cs => simp [parseDigitsAcc, h]; exact fun hc => absurd hc (by simp_all [NumSafe])

theorem natPart_natDigs (n : Nat) (r : List Char) (h : NumSafe r) :
    natPart (natDigs n ++ r) = some (n, r) := by
  by_cases h0 : n = 0
  · subst h0
    have : natDigs 0 = ['0'] := by rw [natDigs_eq]; simp; rfl
    rw [this]
    simp [natPart]
  · obtain ⟨c, cs, hrep, hdig, hz⟩ := natDigs_head n
    have hz' : c ≠ '0' := hz (by omega)
    rw [hrep]
    simp only [List.cons_append, natPart, if_neg hz', hdig, if_true]
    rw [← List.cons_append, ← hrep, parseDigitsAcc_natDigs n 0 r]
    simp [parseDigitsAcc_stop _ _ h]

/-! ### Round-trip of the string escaping -/

theorem hexVal_hexChar : ∀ d : Nat, d < 16 → hexVal (hexChar d) = some d := by decide

theorem parseStr_escList (l : List Char) : ∀ r,
    parseStrChars (escList l ++ ('"' :: r)) = some (l, r) := by
  induction l with
  | nil =>
    intro r
    simp only [escList, List.nil_append]
    rw [parseStrChars.eq_def]
    simp
  | cons c l ih =>
    intro r
    show parseStrChars ((escChar c ++ escList l) ++ ('"' :: r)) = _
    rw [List.append_assoc]
    unfold escChar
    split_ifs with h1 h2 h3 h4 h5 h6 h7 h8
    · subst h1; rw [parseStrChars.eq_def]; simp [ih]
    · subst h2; rw [parseStrChars.eq_def]; simp [ih]
    · subst h3; rw [parseStrChars.eq_def]; simp [ih]
    · subst h4; rw [parseStrChars.eq_def]; simp [ih]
    · subst h5; rw [parseStrChars.eq_def]; simp [ih]
    · subst h6; rw [parseStrChars.eq_def]; simp [ih]
    · subst h7; rw [parseStrChars.eq_def]; simp [ih]
    · -- the `\u00XX` escape for the remaining control characters
      have hdiv : c.toNat / 16 < 16 := by omega
      have hmod : c.toNat % 16 < 16 := Nat.mod_lt _ (by omega)
      have hcn : ((0 * 16 + 0) * 16 + c.toNat / 16) * 16 + c.toNat % 16 = c.toNat := by
        omega
      have hv : Nat.isValidChar c.toNat := Or.inl (by omega)
      simp only [List.cons_append, List.nil_append]
      rw [parseStrChars.eq_def]
      simp [show hexVal '0' = some 0 from rfl, hexVal_hexChar _ hdiv,
        hexVal_hexChar _ hmod, ih]
      have he : c.toNat / 16 * 16 + c.toNat % 16 = c.toNat := by omega
      rw [he]
      exact ⟨hv, Char.ofNat_toNat c⟩
    · simp only [List.cons_append, List.nil_append]
      rw [parseStrChars.eq_def]
      simp [h1, h2, h8, ih]

/-! ### Whitespace facts -/

theorem skipWs_cons_of_not_ws {c : Char} (h : isWsC c = false) (cs : List Char) :
    skipWs (c :: cs) = c :: cs := by
  simp [skipWs, h]

theorem digit_not_ws {c : Char} (h : c.isDigit = true) : isWsC c = false := by
  by_contra hne
  have hw : isWsC c = true := by
    cases hb : isWsC c
    · exact absurd hb hne
    · rfl
  simp only [isWsC, decide_eq_true_eq] at hw
  rcases hw with rfl | rfl | rfl | rfl <;> simp_all

theorem digit_ne_rbracket {c : Char} (h : c.isDigit = true) : c ≠ ']' := by
  rintro rfl; simp_all

theorem parseVal_ws (f : Nat) (x : List Char) : parseVal f (' ' :: x) = parseVal f x := by
  match f with
  | 0 => rfl
  | g + 1 =>
    rw [parseVal, parseVal, show skipWs (' ' :: x) = skipWs x from by simp [skipWs, isWsC]]

theorem parseItems_ws (f : Nat) (x : List Char) :
    parseItems f (' ' :: x) = parseItems f x := by
  match f with
  | 0 => rfl
  | g + 1 => rw [parseItems, parseItems, parseVal_ws]

theorem parseKVs_ws (f : Nat) (x : List Char) : parseKVs f (' ' :: x) = parseKVs f x := by
  match f with
  | 0 => rfl
  | g + 1 =>
    rw [parseKVs, parseKVs, show skipWs (' ' :: x) = skipWs x from by simp [skipWs, isWsC]]


mutual
def sizeJ : Json → Nat
  | .null => 1
  | .bool _ => 1
  | .num _ => 1
  | .str _ => 1
  | .arr es => 1 + sizeL es
  | .obj fs => 1 + sizeF fs
def sizeL : List Json → Nat
  | [] => 0
  | e :: es => 1 + sizeJ e + sizeL es
def sizeF : List (String × Json) → Nat
  | [] => 0
  | f :: fs => 1 + sizeJ f.2 + sizeF fs
end

def renderItems : List Json → List Char
  | [] => []
  | e :: es => render e ++ renderTail es

def renderKVs : List (String × Json) → List Char
  | [] => []
  | f :: fs => renderField f ++ renderFTail fs

def ValOK (v : Json) : Prop :=
  ∀ fuel r, sizeJ v ≤ fuel → NumSafe r → parseVal fuel (render v ++ r) = some (v, r)

def ItemsOK (es : List Json) : Prop :=
  ∀ fuel r, sizeL es ≤ fuel → parseItems fuel (renderItems es ++ (']' :: r)) = some (es, r)

def KVsOK (fs : List (String × Json)) : Prop :=
  ∀ fuel r, sizeF fs ≤ fuel → parseKVs fuel (renderKVs fs ++ (rbrace :: r)) = some (fs, r)

theorem parseVal_succ (f : Nat) (cs : List Char) :
    parseVal (f + 1) cs =
      match skipWs cs with
      | 'n' :: 'u' :: 'l' :: 'l' :: rest => some (.null, rest)
      | 't' :: 'r' :: 'u' :: 'e' :: rest => some (.bool true, rest)
      | 'f' :: 'a' :: 'l' :: 's' :: 'e' :: rest => some (.bool false, rest)
      | '"' :: rest => (parseStrChars rest).map (fun p => (.str (String.mk p.1), p.2))
      | '-' :: rest => (natPart rest).map (fun p => (.num (-(p.1 : Int)), p.2))
      | '[' :: rest =>
        match skipWs rest with
        | ']' :: rest2 => some (.arr [], rest2)
        | other => (parseItems f other).map (fun p => (.arr p.1, p.2))
      | c :: rest =>
        if c = lbrace then
          match skipWs rest with
          | c2 :: rest2 =>
            if c2 = rbrace then some (.obj [], rest2)
            else (parseKVs f (c2 :: rest2)).map (fun p => (.obj p.1, p.2))
          | [] => none
        else (natPart (c :: rest)).map (fun p => (.num (p.1 : Int), p.2))
      | [] => none := rfl

theorem parseVal_arr (f : Nat) (x : List Char) :
    parseVal (f + 1) ('[' :: x) =
      match skipWs x with
      | ']' :: rest2 => some (.arr [], rest2)
      | other => (parseItems f other).map (fun p => (.arr p.1, p.2)) := rfl

theorem parseVal_obj (f : Nat) (x : List Char) :
    parseVal (f + 1) (lbrace :: x) =
      match skipWs x with
      | c2 :: rest2 =>
        if c2 = rbrace then some (.obj [], rest2)
        else (parseKVs f (c2 :: rest2)).map (fun p => (.obj p.1, p.2))
      | [] => none := rfl

theorem parseItems_succ (f : Nat) (cs : List Char) :
    parseItems (f + 1) cs =
      match parseVal f cs with
      | none => none
      | some (v, rest) =>
        match skipWs rest with
        | ',' :: rest2 => (parseItems f rest2).map (fun p => (v :: p.1, p.2))
        | ']' :: rest2 => some ([v], rest2)
        | _ => none := rfl

theorem parseKVs_succ (f : Nat) (cs : List Char) :
    parseKVs (f + 1) cs =
      match skipWs cs with
      | '"' :: rest =>
        match parseStrChars rest with
        | none => none
        | some (kcs, rest2) =>
          match skipWs rest2 with
          | ':' :: rest3 =>
            match parseVal f rest3 with
            | none => none
            | some (v, rest4) =>
              match skipWs rest4 with
              | ',' :: rest5 =>
                (parseKVs f rest5).map (fun p => ((String.mk kcs, v) :: p.1, p.2))
              | c :: rest5 =>
                if c = rbrace then some ([(String.mk kcs, v)], rest5) else none
              | [] => none
          | _ => none
      | _ => none := rfl

theorem null_case (f : Nat) (r : List Char) :
    parseVal (f + 1) (render .null ++ r) = some (.null, r) := by
  rw [parseVal.eq_def]
  simp [render, skipWs, isWsC]

theorem bool_case (f : Nat) (b : Bool) (r : List Char) :
    parseVal (f + 1) (render (.bool b) ++ r) = some (.bool b, r) := by
  cases b <;> (rw [parseVal.eq_def]; simp [render, skipWs, isWsC])

theorem arrnil_case (f : Nat) (r : List Char) :
    parseVal (f + 1) (render (.arr []) ++ r) = some (.arr [], r) := by
  rw [parseVal.eq_def]
  simp [render, skipWs, isWsC]

theorem objnil_case (f : Nat) (r : List Char) :
    parseVal (f + 1) (render (.obj []) ++ r) = some (.obj [], r) := by
  rw [parseVal.eq_def]
  simp [render, skipWs, isWsC, lbrace, rbrace]

theorem str_case (f : Nat) (s : String) (r : List Char) :
    parseVal (f + 1) (render (.str s) ++ r) = some (.str s, r) := by
  have h1 : render (.str s) ++ r = '"' :: (escList s.data ++ ('"' :: r)) := by
    simp [render, strChars]
  rw [h1, parseVal_succ,
    skipWs_cons_of_not_ws (by decide) (escList s.data ++ ('"' :: r))]
  simp [parseStr_escList]

theorem digit_enum {c : Char} (h : c.isDigit = true) :
    c = '0' ∨ c = '1' ∨ c = '2' ∨ c = '3' ∨ c = '4' ∨
    c = '5' ∨ c = '6' ∨ c = '7' ∨ c = '8' ∨ c = '9' := by
  have hc : c = Char.ofNat c.toNat := (Char.ofNat_toNat c).symm
  have hb : 48 ≤ c.toNat ∧ c.toNat ≤ 57 := by simp [Char.isDigit] at h; exact h
  obtain ⟨hl, hr⟩ := hb
  interval_cases hn : c.toNat <;> rw [hc] <;> decide

theorem num_case (f : Nat) (i : Int) (r : List Char) (hr : NumSafe r) :
    parseVal (f + 1) (render (.num i) ++ r) = some (.num i, r) := by
  by_cases hi : i < 0
  · have h1 : render (.num i) ++ r = '-' :: (natDigs i.natAbs ++ r) := by
      simp [render, intChars, hi]
    have h2 : -(i.natAbs : Int) = i := by omega
    have h3 : -|i| = i := by rw [abs_of_neg hi]; ring
    rw [h1, parseVal_succ, skipWs_cons_of_not_ws (by decide) _]
    simp [natPart_natDigs _ _ hr, h2, h3]
  · obtain ⟨c, cs, hnd, hdig, -⟩ := natDigs_head i.toNat
    have h1 : render (.num i) ++ r = c :: (cs ++ r) := by
      simp [render, intChars, hi, hnd]
    have hsafe : natPart (c :: (cs ++ r)) = some (i.toNat, r) := by
      rw [show c :: (cs ++ r) = (c :: cs) ++ r from rfl, ← hnd]
      exact natPart_natDigs _ _ hr
    have hival : ((i.toNat : Int)) = i := Int.toNat_of_nonneg (by omega)
    rw [h1, parseVal_succ, skipWs_cons_of_not_ws (digit_not_ws hdig) _]
    rcases digit_enum hdig with rfl|rfl|rfl|rfl|rfl|rfl|rfl|rfl|rfl|rfl <;>
      simp [hsafe, hival, lbrace]

theorem sizeJ_pos (v : Json) : 1 ≤ sizeJ v := by
  cases v <;> simp [sizeJ]

theorem render_head (v : Json) :
    ∃ c cs, render v = c :: cs ∧ isWsC c = false ∧ c ≠ ']' := by
  match v with
  | .null => exact ⟨'n', ['u', 'l', 'l'], by simp [render], by decide, by decide⟩
  | .bool true => exact ⟨'t', ['r', 'u', 'e'], by simp [render], by decide, by decide⟩
  | .bool false => exact ⟨'f', ['a', 'l', 's', 'e'], by simp [render], by decide, by decide⟩
  | .str s => exact ⟨'"', escList s.data ++ ['"'], by simp [render, strChars], by decide,
      by decide⟩
  | .arr [] => exact ⟨'[', [']'], by simp [render], by decide, by decide⟩
  | .arr (e :: es) => exact ⟨'[', render e ++ (renderTail es ++ [']']), by simp [render],
      by decide, by decide⟩
  | .obj [] => exact ⟨lbrace, [rbrace], by simp [render], by decide, by decide⟩
  | .obj (f :: fs) => exact ⟨lbrace, renderField f ++ (renderFTail fs ++ [rbrace]),
      by simp [render], by decide, by decide⟩
  | .num i =>
    by_cases hi : i < 0
    · exact ⟨'-', natDigs i.natAbs, by simp [render, intChars, hi], by decide, by decide⟩
    · obtain ⟨c, cs, hnd, hdig, -⟩ := natDigs_head i.toNat
      exact ⟨c, cs, by simp [render, intChars, hi, hnd], digit_not_ws hdig,
        digit_ne_rbracket hdig⟩

theorem roundtrip_master (n : Nat) :
    (∀ v : Json, sizeJ v ≤ n → ValOK v) ∧
    (∀ es : List Json, es ≠ [] → sizeL es ≤ n → ItemsOK es) ∧
    (∀ fs : List (String × Json), fs ≠ [] → sizeF fs ≤ n → KVsOK fs) := by
  induction n using Nat.strong_induction_on with
  | _ n ih =>
  refine ⟨?_, ?_, ?_⟩
  · rintro v hv fuel r hf hr
    obtain ⟨f, rfl⟩ : ∃ f, fuel = f + 1 := ⟨fuel - 1, by have := sizeJ_pos v; omega⟩
    match v, hv, hf with
    | .null, _, _ => exact null_case f r
    | .bool b, _, _ => exact bool_case f b r
    | .num i, _, _ => exact num_case f i r hr
    | .str s, _, _ => exact str_case f s r
    | .arr [], _, _ => exact arrnil_case f r
    | .obj [], _, _ => exact objnil_case f r
    | .arr (e :: es), hv, hf =>
      simp only [sizeJ] at hv hf
      have hlt : sizeL (e :: es) < n := by omega
      have hitems := (ih _ hlt).2.1 (e :: es) (by simp) le_rfl
      have happ : render (.arr (e :: es)) ++ r
          = '[' :: (renderItems (e :: es) ++ (']' :: r)) := by
        simp [render, renderItems]
      rw [happ, parseVal_arr]
      obtain ⟨c, cs, hrend, hws, hnb⟩ := render_head e
      have hri : renderItems (e :: es) ++ (']' :: r)
          = c :: (cs ++ (renderTail es ++ (']' :: r))) := by
        simp [renderItems, hrend]
      rw [hri, skipWs_cons_of_not_ws hws]
      split
      · next rest2 heq =>
        exact absurd (by injection heq) hnb
      · rw [← hri, hitems f r (by omega)]
        simp
    | .obj ((k, w) :: fs), hv, hf =>
      simp only [sizeJ] at hv hf
      have hlt : sizeF ((k, w) :: fs) < n := by omega
      have hkvs := (ih _ hlt).2.2 ((k, w) :: fs) (by simp) le_rfl
      have happ : render (.obj ((k, w) :: fs)) ++ r
          = lbrace :: (renderKVs ((k, w) :: fs) ++ (rbrace :: r)) := by
        simp [render, renderKVs]
      rw [happ, parseVal_obj]
      have hq : renderKVs ((k, w) :: fs) ++ (rbrace :: r)
          = '"' :: (escList k.data ++ ('"' :: (':' :: ' ' ::
            (render w ++ (renderFTail fs ++ (rbrace :: r)))))) := by
        simp [renderKVs, renderField, strChars]
      rw [hq, skipWs_cons_of_not_ws (by decide) _]
      split
      · next c2 rest2 heq =>
        injection heq with hc2 hrest2
        subst hc2
        subst hrest2
        rw [if_neg (by decide : ¬ ('"' : Char) = rbrace), ← hq,
          hkvs f r (by omega)]
        simp
      · next heq => exact absurd heq (by simp)
  · rintro es hne hsz fuel r hf
    match es, hne with
    | e :: es2, _ =>
    obtain ⟨f, rfl⟩ : ∃ f, fuel = f + 1 := ⟨fuel - 1, by simp [sizeL] at hf; omega⟩
    simp only [sizeL] at hf hsz
    have hvE : ValOK e := (ih (sizeJ e) (by omega)).1 e le_rfl
    rw [parseItems_succ]
    have h1 : renderItems (e :: es2) ++ (']' :: r)
        = render e ++ (renderTail es2 ++ (']' :: r)) := by simp [renderItems]
    rw [h1]
    have hNS : NumSafe (renderTail es2 ++ (']' :: r)) := by
      cases es2 <;> simp [renderTail, NumSafe]
    rw [hvE f _ (by omega) hNS]
    cases es2 with
    | nil => simp [renderTail, skipWs, isWsC]
    | cons e2 es3 =>
      have h2 : renderTail (e2 :: es3) ++ (']' :: r)
          = ',' :: ' ' :: (renderItems (e2 :: es3) ++ (']' :: r)) := by
        simp [renderTail, renderItems]
      rw [h2]
      have hitems2 := (ih (sizeL (e2 :: es3)) (by simp only [sizeL] at hsz ⊢; omega)).2.1
        (e2 :: es3) (by simp) le_rfl
      simp only [sizeL] at hf
      simp [skipWs, isWsC, parseItems_ws, hitems2 f r (by simp only [sizeL]; omega)]
  · rintro fs hne hsz fuel r hf
    match fs, hne with
    | (k, w) :: fs2, _ =>
    obtain ⟨f, rfl⟩ : ∃ f, fuel = f + 1 := ⟨fuel - 1, by simp [sizeF] at hf; omega⟩
    simp only [sizeF] at hf hsz
    have hvW : ValOK w := (ih (sizeJ w) (by omega)).1 w le_rfl
    rw [parseKVs_succ]
    have h1 : renderKVs ((k, w) :: fs2) ++ (rbrace :: r)
        = '"' :: (escList k.data ++ ('"' :: (':' :: ' ' ::
          (render w ++ (renderFTail fs2 ++ (rbrace :: r)))))) := by
      simp [renderKVs, renderField, strChars]
    rw [h1, skipWs_cons_of_not_ws (by decide) _]
    have hNS : NumSafe (renderFTail fs2 ++ (rbrace :: r)) := by
      cases fs2
      · simp [renderFTail, NumSafe]; decide
      · simp [renderFTail, NumSafe]
    have hW := hvW f (renderFTail fs2 ++ (rbrace :: r)) (by omega) hNS
    cases fs2 with
    | nil =>
      simp only [renderFTail, List.nil_append, rbrace] at hW
      simp [parseStr_escList, skipWs, isWsC, parseVal_ws, hW, renderFTail, rbrace]
    | cons f2 fs3 =>
      have hkvs2 := (ih (sizeF (f2 :: fs3)) (by simp only [sizeF] at hsz ⊢; omega)).2.2
        (f2 :: fs3) (by simp) le_rfl
      simp only [renderFTail, List.cons_append, List.append_assoc, List.nil_append] at hW
      simp [parseStr_escList, skipWs, isWsC, parseVal_ws, hW, renderFTail,
        parseKVs_ws]
      rw [show renderField f2 ++ (renderFTail fs3 ++ (rbrace :: r))
        = renderKVs (f2 :: fs3) ++ (rbrace :: r) from by simp [renderKVs]]
      exact hkvs2 f r (by simp only [sizeF] at hf ⊢; omega)

theorem strChars_len (s : String) : 2 ≤ (strChars s).length := by
  simp [strChars]

theorem intChars_len (i : Int) : 1 ≤ (intChars i).length := by
  unfold intChars
  split
  · simp
  · obtain ⟨c, cs, hnd, -, -⟩ := natDigs_head i.toNat
    simp [hnd]

theorem render_length (n : Nat) :
    (∀ v : Json, sizeJ v ≤ n → sizeJ v ≤ (render v).length) ∧
    (∀ es : List Json, sizeL es ≤ n → sizeL es ≤ (renderTail es).length) ∧
    (∀ fs : List (String × Json), sizeF fs ≤ n → sizeF fs ≤ (renderFTail fs).length) := by
  induction n using Nat.strong_induction_on with
  | _ n ih =>
  have hfield : ∀ kv : String × Json, sizeJ kv.2 < n →
      sizeJ kv.2 + 2 ≤ (renderField kv).length := by
    rintro ⟨k, w⟩ hlt
    have hw := (ih (sizeJ w) hlt).1 w le_rfl
    have hk := strChars_len k
    simp only [renderField]
    simp [List.length_append]
    omega
  refine ⟨?_, ?_, ?_⟩
  · rintro v hv
    match v with
    | .null => simp [render, sizeJ]
    | .bool b => cases b <;> simp [render, sizeJ]
    | .num i => simpa [render, sizeJ] using intChars_len i
    | .str s => simp [render, sizeJ, strChars]
    | .arr [] => simp [render, sizeJ, sizeL]
    | .obj [] => simp [render, sizeJ, sizeF]
    | .arr (e :: es) =>
      simp only [sizeJ, sizeL] at hv ⊢
      have he := (ih (sizeJ e) (by omega)).1 e le_rfl
      have hes := (ih (sizeL es) (by omega)).2.1 es le_rfl
      simp [render, List.length_append]
      omega
    | .obj (kv :: fs) =>
      simp only [sizeJ, sizeF] at hv ⊢
      have hkv := hfield kv (by omega)
      have hfs := (ih (sizeF fs) (by omega)).2.2 fs le_rfl
      simp [render, List.length_append]
      omega
  · rintro es hsz
    match es with
    | [] => simp [renderTail, sizeL]
    | e :: es2 =>
      simp only [sizeL] at hsz ⊢
      have he := (ih (sizeJ e) (by omega)).1 e le_rfl
      have hes := (ih (sizeL es2) (by omega)).2.1 es2 le_rfl
      simp [renderTail, List.length_append]
      omega
  · rintro fs hsz
    match fs with
    | [] => simp [renderFTail, sizeF]
    | kv :: fs2 =>
      simp only [sizeF] at hsz ⊢
      have hkv := hfield kv (by omega)
      have hfs := (ih (sizeF fs2) (by omega)).2.2 fs2 le_rfl
      simp [renderFTail, List.length_append]
      omega

theorem ValOK_all (v : Json) : ValOK v := (roundtrip_master (sizeJ v)).1 v le_rfl

/-- The central round-trip fact: `json.loads` inverts `json.dumps`. -/
theorem loads_dumps (v : Json) : loads (dumps v) = some v := by
  unfold loads dumps
  have hdata : (String.mk (render v)).data = render v := rfl
  rw [hdata]
  have hlen : sizeJ v ≤ (render v).length + 1 := by
    have := (render_length (sizeJ v)).1 v le_rfl
    omega
  have h := ValOK_all v ((render v).length + 1) [] hlen trivial
  rw [List.append_nil] at h
  rw [h]
  simp [skipWs]



/-! ## Python-level helpers used by the handlers -/

/-- The whitespace `str.strip()` removes (ASCII range). -/
def pySpace (c : Char) : Bool :=
  isWsC c || c = Char.ofNat 11 || c = Char.ofNat 12

/-- Python `str.strip()`. -/
def pyStrip (s : String) : String :=
  String.mk (((s.data.dropWhile pySpace).reverse.dropWhile pySpace).reverse)

/-- Value of a nonempty all-digit run, else failure. -/
def digitsVal (cs : List Char) : Option Nat :=
  if cs ≠ [] ∧ cs.all Char.isDigit then
    some (cs.foldl (fun a c => a * 10 + digVal c) 0)
  else none

/-- Python `int(s)` on a string: optional sign and digits after stripping
whitespace, `None` standing for the `ValueError` the handlers catch. -/
def pyIntStr (s : String) : Option Int :=
  match (pyStrip s).data with
  | '-' :: ds => (digitsVal ds).map (fun n => -(n : Int))
  | '+' :: ds => (digitsVal ds).map (fun n => (n : Int))
  | ds => (digitsVal ds).map (fun n => (n : Int))

/-- Python `int(v)` on a decoded JSON value (`none` models the
`TypeError`/`ValueError` the callers catch). -/
def pyInt : Json → Option Int
  | .num n => some n
  | .str s => pyIntStr s
  | .bool b => some (if b then 1 else 0)
  | _ => none

/-- Python truthiness of a decoded JSON value. -/
def pyTruthy : Json → Bool
  | .null => false
  | .bool b => b
  | .num n => n != 0
  | .str s => s != ""
  | .arr l => !l.isEmpty
  | .obj l => !l.isEmpty

/-- ASCII lower-casing, modelling SQL `LOWER`. -/
def lowerStr (s : String) : String := String.mk (s.data.map Char.toLower)

/-! ## Calendar dates (`datetime.date`) -/

/-- A validated calendar date as `datetime.date` stores it. -/
structure DateV where
  y : Int
  m : Int
  d : Int
deriving DecidableEq

/-- Gregorian leap year. -/
def isLeap (y : Int) : Bool := (y % 4 == 0 && y % 100 != 0) || y % 400 == 0

/-- Days in a month. -/
def daysInMonth (y m : Int) : Int :=
  if m = 1 ∨ m = 3 ∨ m = 5 ∨ m = 7 ∨ m = 8 ∨ m = 10 ∨ m = 12 then 31
  else if m = 4 ∨ m = 6 ∨ m = 9 ∨ m = 11 then 30
  else if isLeap y then 29 else 28

/-- The checks `datetime.date(y, m, d)` performs. -/
def validDate (y m d : Int) : Bool :=
  decide (1 ≤ y) && decide (y ≤ 9999) && decide (1 ≤ m) && decide (m ≤ 12) &&
  decide (1 ≤ d) && decide (d ≤ daysInMonth y m)

/-- Python `s.split('-')`. -/
def splitDash : List Char → List (List Char)
  | [] => [[]]
  | c :: rest =>
    if c = '-' then [] :: splitDash rest
    else
      match splitDash rest with
      | g :: gs => (c :: g) :: gs
      | [] => [[c]]

/-- `year, month, day = map(int, s.split('-'))` followed by
`date(year, month, day)`; `none` models the `ValueError` the handlers
turn into a 400. -/
def parseDob (s : String) : Option DateV :=
  match (splitDash s.data).map (fun p => pyIntStr (String.mk p)) with
  | [some y, some m, some d] => if validDate y m d then some ⟨y, m, d⟩ else none
  | _ => none

example : parseDob "1990-01-15" = some ⟨1990, 1, 15⟩ := rfl
example : parseDob "1990-02-30" = none := rfl
example : parseDob "1990-1" = none := rfl

/-! ## Database rows and state

Column types follow `schema.sql` / `app/models.py`: text columns hold text
or NULL, so the rows carry `Option String`; a handler that would hand the
driver a non-text value for a text column is modelled as the resulting 500
response with no write. -/

/-- A `users` row. -/
structure UserRow where
  id : Int
  first_name : Option String
  last_name : Option String
  date_of_birth : Option DateV
deriving DecidableEq

/-- A `properties` row (`rooms_details` is the stored serialized text). -/
structure PropRow where
  id : Int
  owner_id : Int
  name : String
  description : String
  property_type : String
  city : String
  rooms_count : Int
  rooms_details : Option String
  created_at : Nat
  updated_at : Nat
deriving DecidableEq

/-- The database: both tables plus the generated-key counters. -/
structure DB where
  users : List UserRow
  props : List PropRow
  nextUser : Int
  nextProp : Int
deriving DecidableEq

/-- An HTTP response: status code and JSON body. -/
structure Resp where
  status : Nat
  body : Json

/-- `{"error": msg}` as produced by `jsonify`. -/
def errJ (msg : String) : Json := .obj [("error", .str msg)]

/-- `SELECT ... FROM users WHERE id = %s` with `fetchone`. -/
def findUser (db : DB) (uid : Int) : Option UserRow :=
  db.users.find? (fun u => u.id == uid)

/-- `SELECT ... FROM properties WHERE id = %s` with `fetchone`. -/
def findProp (db : DB) (pid : Int) : Option PropRow :=
  db.props.find? (fun p => p.id == pid)

/-- A property row joined with its owning user. -/
structure JoinedRow where
  prop : PropRow
  owner : UserRow
deriving DecidableEq

/-- `_fetch_property`: property joined against its owner (inner join). -/
def fetch_property (db : DB) (pid : Int) : Option JoinedRow :=
  match findProp db pid with
  | none => none
  | some p => (findUser db p.owner_id).map (fun u => ⟨p, u⟩)

/-- Nullable text column to JSON. -/
def optStrJ : Option String → Json
  | none => .null
  | some s => .str s

/-- Serialization of a nullable date column (no claim depends on the
format Flask uses, only on null versus non-null). -/
def dateJ : Option DateV → Json
  | none => .null
  | some d =>
    .str (String.mk (intChars d.y ++ '-' :: intChars d.m ++ '-' :: intChars d.d))

/-- The user object the user handlers return. -/
def userJson (u : UserRow) : Json :=
  .obj [("id", .num u.id), ("first_name", optStrJ u.first_name),
        ("last_name", optStrJ u.last_name), ("date_of_birth", dateJ u.date_of_birth)]

/-! ## `app/users.py` handlers -/

/-- `get_current_user_id`: read `X-User-Id`, `int(raw)` with `ValueError`
collapsed to `None` (both copies in `users.py` and `property.py` are this
function). -/
def get_current_user_id (hdr : Option String) : Option Int :=
  match hdr with
  | none => none
  | some raw => pyIntStr raw

/-- `POST /users` (`create_user`).  The body is the decoded JSON object;
`none` stands for a missing or unparseable body, which `request.get_json()`
turns into a plain 400. -/
def create_user (db : DB) (body : Option (List (String × Json))) : DB × Resp :=
  match body with
  | none => (db, ⟨400, errJ "bad request"⟩)
  | some data =>
    let fn := (data.lookup "first_name").getD .null
    let ln := (data.lookup "last_name").getD .null
    let dobv := (data.lookup "date_of_birth").getD .null
    if !pyTruthy fn || !pyTruthy ln || !pyTruthy dobv then
      (db, ⟨400, errJ "first_name, last_name and date_of_birth are required"⟩)
    else
      match dobv with
      | .str ds =>
        match parseDob ds with
        | none => (db, ⟨400, errJ "date_of_birth must be YYYY-MM-DD"⟩)
        | some d =>
          match fn, ln with
          | .str f, .str l =>
            let u : UserRow := ⟨db.nextUser, some f, some l, some d⟩
            ({ db with users := db.users ++ [u], nextUser := db.nextUser + 1 },
              ⟨201, .obj [("id", .num db.nextUser)]⟩)
          | _, _ => (db, ⟨500, errJ "internal server error"⟩)
      | _ => (db, ⟨500, errJ "internal server error"⟩)

/-- `GET /users/{id}` (`get_user`); `abort(404)` lands in the generic
error responder, whose body is `{"error": "not found"}`. -/
def get_user (db : DB) (uid : Int) : Resp :=
  match findUser db uid with
  | none => ⟨404, errJ "not found"⟩
  | some u => ⟨200, userJson u⟩

/-- `PATCH /users/{id}` (`update_user`). -/
def update_user (db : DB) (hdr : Option String) (uid : Int)
    (body : Option (List (String × Json))) : DB × Resp :=
  match get_current_user_id hdr with
  | none => (db, ⟨401, errJ "X-User-Id header is required"⟩)
  | some cu =>
    if cu ≠ uid then (db, ⟨403, errJ "forbidden: you can only update your own user"⟩)
    else
      match body with
      | none => (db, ⟨400, errJ "bad request"⟩)
      | some data =>
        if !((data.lookup "first_name").isSome || (data.lookup "last_name").isSome ||
            (data.lookup "date_of_birth").isSome) then
          (db, ⟨400, errJ "no supported fields to update"⟩)
        else
          match findUser db uid with
          | none => (db, ⟨404, errJ "not found"⟩)
          | some row =>
            let dobRes : Except Resp (Option DateV) :=
              match data.lookup "date_of_birth" with
              | none => .ok row.date_of_birth
              | some .null => .ok none
              | some (.str ds) =>
                match parseDob ds with
                | some d => .ok (some d)
                | none => .error ⟨400, errJ "date_of_birth must be YYYY-MM-DD"⟩
              | some _ => .error ⟨500, errJ "internal server error"⟩
            match dobRes with
            | .error e => (db, e)
            | .ok dob =>
              let fnRes : Except Unit (Option String) :=
                match data.lookup "first_name" with
                | none => .ok row.first_name
                | some .null => .ok none
                | some (.str s) => .ok (some s)
                | some _ => .error ()
              let lnRes : Except Unit (Option String) :=
                match data.lookup "last_name" with
                | none => .ok row.last_name
                | some .null => .ok none
                | some (.str s) => .ok (some s)
                | some _ => .error ()
              match fnRes, lnRes with
              | .ok fn, .ok ln =>
                ({ db with users := db.users.map (fun u =>
                    if u.id == uid then
                      { u with first_name := fn, last_name := ln, date_of_birth := dob }
                    else u) },
                  ⟨200, .obj [("message", .str "user updated")]⟩)
              | _, _ => (db, ⟨500, errJ "internal server error"⟩)

/-! ## `app/property.py` handlers -/

/-- `_serialize_property`'s treatment of the stored `rooms_details` text:
non-empty text is `json.loads`-parsed, a decode error degrades to `[]`,
NULL or empty text gives `[]`. -/
def parsedRooms : Option String → Json
  | none => .arr []
  | some s =>
    if s = "" then .arr []
    else
      match loads s with
      | some v => v
      | none => .arr []

/-- `_serialize_property` on a joined row. -/
def serialize_property (jr : JoinedRow) : Json :=
  .obj [("id", .num jr.prop.id),
        ("name", .str jr.prop.name),
        ("description", .str jr.prop.description),
        ("property_type", .str jr.prop.property_type),
        ("city", .str jr.prop.city),
        ("rooms_count", .num jr.prop.rooms_count),
        ("rooms_details", parsedRooms jr.prop.rooms_details),
        ("created_at", .num (jr.prop.created_at : Int)),
        ("updated_at", .num (jr.prop.updated_at : Int)),
        ("owner", .obj [("id", .num jr.prop.owner_id),
                        ("first_name", optStrJ jr.owner.first_name),
                        ("last_name", optStrJ jr.owner.last_name)])]

/-- The normalized column values `_extract_property_payload` returns
(it never emits an `owner_id` column). -/
structure Fields where
  name : Option Json
  description : Option Json
  property_type : Option Json
  city : Option Json
  rooms_details : Option String
  rooms_count : Option Int

/-- One required text field in `_extract_property_payload`: present `None`
or blank strings are rejected, present strings are stripped, other present
values pass through; absent fields are required unless partial. -/
def normField (payload : List (String × Json)) (part : Bool) (field : String) :
    Except String (Option Json) :=
  match payload.lookup field with
  | some v =>
    match v with
    | .null => .error (field ++ " cannot be empty")
    | .str s =>
      if pyStrip s = "" then .error (field ++ " cannot be empty")
      else .ok (some (.str (pyStrip s)))
    | other => .ok (some other)
  | none => if part then .ok none else .error (field ++ " is required")

/-- `_extract_property_payload`. -/
def extract_property_payload (payload : List (String × Json)) (part : Bool) :
    Except String Fields := do
  let nameF ← normField payload part "name"
  let descF ← normField payload part "description"
  let typeF ← normField payload part "property_type"
  let cityF ← normField payload part "city"
  let rdState : Except String (Bool × List Json × Option String) :=
    match payload.lookup "rooms_details" with
    | some v =>
      match v with
      | .null => .ok (true, [], some (dumps (.arr [])))
      | .str s =>
        if s = "" then .ok (true, [], some (dumps (.arr [])))
        else .error "rooms_details must be a list"
      | .arr es => .ok (true, es, some (dumps (.arr es)))
      | _ => .error "rooms_details must be a list"
    | none =>
      if part then .ok (false, [], none)
      else .ok (false, [], some (dumps (.arr [])))
  match rdState with
  | .error e => .error e
  | .ok (rdProvided, rdVal, rdText) =>
    let rcValue : Option Json :=
      match payload.lookup "rooms_count" with
      | some v => some v
      | none => if rdProvided then some (.num (rdVal.length : Int)) else none
    match rcValue with
    | some v =>
      match pyInt v with
      | none => .error "rooms_count must be an integer"
      | some n => .ok ⟨nameF, descF, typeF, cityF, rdText, some (max 0 n)⟩
    | none =>
      if !part then .ok ⟨nameF, descF, typeF, cityF, rdText, some (rdVal.length : Int)⟩
      else .ok ⟨nameF, descF, typeF, cityF, rdText, none⟩

/-- `POST /properties` (`create_property`); validation, then the owner
existence check, then the insert; a non-text value reaching a text column
is the driver error, surfacing as 500 with no write. -/
def create_property (db : DB) (now : Nat) (hdr : Option String)
    (body : Option (List (String × Json))) : DB × Resp :=
  match get_current_user_id hdr with
  | none => (db, ⟨401, errJ "X-User-Id header is required"⟩)
  | some uid =>
    let payload := body.getD []
    match extract_property_payload payload false with
    | .error e => (db, ⟨400, errJ e⟩)
    | .ok f =>
      match findUser db uid with
      | none => (db, ⟨400, errJ "owner user not found"⟩)
      | some _ =>
        match f.name, f.description, f.property_type, f.city,
            f.rooms_details, f.rooms_count with
        | some (.str nm), some (.str ds), some (.str pt), some (.str ct),
            some rd, some rc =>
          let row : PropRow := ⟨db.nextProp, uid, nm, ds, pt, ct, rc, some rd, now, now⟩
          let db2 := { db with props := db.props ++ [row], nextProp := db.nextProp + 1 }
          match fetch_property db2 db.nextProp with
          | some jr => (db2, ⟨201, .obj [("property", serialize_property jr)]⟩)
          | none => (db2, ⟨500, errJ "internal server error"⟩)
        | _, _, _, _, _, _ => (db, ⟨500, errJ "internal server error"⟩)

/-- `GET /properties/{id}` (`retrieve_property`). -/
def retrieve_property (db : DB) (pid : Int) : Resp :=
  match fetch_property db pid with
  | none => ⟨404, errJ "property not found"⟩
  | some jr => ⟨200, .obj [("property", serialize_property jr)]⟩

/-- The `UPDATE ... SET` built from the extracted fields: only supplied
columns change, plus `updated_at = CURRENT_TIMESTAMP`; `id` and
`owner_id` are never in the assignment list. -/
def applyFields (p : PropRow) (f : Fields) (now : Nat) : PropRow :=
  { p with
    name := match f.name with | some (.str s) => s | _ => p.name
    description := match f.description with | some (.str s) => s | _ => p.description
    property_type := match f.property_type with | some (.str s) => s | _ => p.property_type
    city := match f.city with | some (.str s) => s | _ => p.city
    rooms_details := match f.rooms_details with | some rd => some rd | none => p.rooms_details
    rooms_count := f.rooms_count.getD p.rooms_count
    updated_at := now }

/-- `if not fields` in `update_property`. -/
def fieldsEmpty (f : Fields) : Bool :=
  f.name.isNone && f.description.isNone && f.property_type.isNone &&
  f.city.isNone && f.rooms_details.isNone && f.rooms_count.isNone

/-- Whether a supplied value can be bound to a text column. -/
def textOk : Option Json → Bool
  | none => true
  | some (.str _) => true
  | some _ => false

/-- `PUT|PATCH /properties/{id}` (`update_property`). -/
def update_property (db : DB) (now : Nat) (hdr : Option String) (pid : Int)
    (body : Option (List (String × Json))) : DB × Resp :=
  match get_current_user_id hdr with
  | none => (db, ⟨401, errJ "X-User-Id header is required"⟩)
  | some uid =>
    match fetch_property db pid with
    | none => (db, ⟨404, errJ "property not found"⟩)
    | some jr =>
      if jr.prop.owner_id ≠ uid then
        (db, ⟨403, errJ "you can only edit your own properties"⟩)
      else
        let payload := body.getD []
        match extract_property_payload payload true with
        | .error e => (db, ⟨400, errJ e⟩)
        | .ok f =>
          if fieldsEmpty f then (db, ⟨400, errJ "nothing to update"⟩)
          else if !(textOk f.name && textOk f.description &&
              textOk f.property_type && textOk f.city) then
            (db, ⟨500, errJ "internal server error"⟩)
          else
            let db2 := { db with props := db.props.map (fun p =>
              if p.id == pid then applyFields p f now else p) }
            match fetch_property db2 pid with
            | some jr2 => (db2, ⟨200, .obj [("property", serialize_property jr2)]⟩)
            | none => (db2, ⟨500, errJ "internal server error"⟩)

/-- `DELETE /properties/{id}` (`delete_property`). -/
def delete_property (db : DB) (hdr : Option String) (pid : Int) : DB × Resp :=
  match get_current_user_id hdr with
  | none => (db, ⟨401, errJ "X-User-Id header is required"⟩)
  | some uid =>
    match fetch_property db pid with
    | none => (db, ⟨404, errJ "property not found"⟩)
    | some jr =>
      if jr.prop.owner_id ≠ uid then
        (db, ⟨403, errJ "you can only delete your own properties"⟩)
      else
        ({ db with props := db.props.filter (fun p => !(p.id == pid)) },
          ⟨200, .obj [("message", .str "property deleted")]⟩)

/-- `int(request.args.get(k, dflt))` with the `except` falling back to
the default. -/
def pageOf (arg : Option String) (dflt : Int) : Int :=
  match arg with
  | none => dflt
  | some s => (pyIntStr s).getD dflt

/-- The inner join `properties p JOIN users u ON p.owner_id = u.id`,
in table order. -/
def joinedRows (db : DB) : List JoinedRow :=
  db.props.filterMap (fun p => (findUser db p.owner_id).map (fun u => ⟨p, u⟩))

/-- `LOWER(p.city) = LOWER(%s)`. -/
def cityMatches (q : String) (jr : JoinedRow) : Bool :=
  lowerStr jr.prop.city == lowerStr q

/-- `ORDER BY p.created_at DESC` (ties resolved by input order). -/
def newerFirst (a b : JoinedRow) : Prop :=
  b.prop.created_at ≤ a.prop.created_at

instance : DecidableRel newerFirst := fun a b =>
  Nat.decLe b.prop.created_at a.prop.created_at

instance : IsTotal JoinedRow newerFirst :=
  ⟨fun a b => (Nat.le_total b.prop.created_at a.prop.created_at).elim Or.inl Or.inr⟩

instance : IsTrans JoinedRow newerFirst :=
  ⟨fun _ _ _ h1 h2 => Nat.le_trans h2 h1⟩

/-- `GET /properties` (`list_properties`): required city filter,
case-insensitive match, newest first, `LIMIT page_size OFFSET offset`. -/
def list_properties (db : DB) (cityArg pageArg psArg : Option String) : Resp :=
  let city := pyStrip (cityArg.getD "")
  if city = "" then ⟨400, errJ "city query parameter is required"⟩
  else
    let page := max (pageOf pageArg 1) 1
    let page_size := max (min (pageOf psArg 20) 100) 1
    let offset := (page - 1) * page_size
    let sorted := ((joinedRows db).filter (cityMatches city)).insertionSort newerFirst
    let pageRows := (sorted.drop offset.toNat).take page_size.toNat
    ⟨200, .obj [("properties", .arr (pageRows.map serialize_property)),
                ("page", .num page), ("page_size", .num page_size)]⟩

/-! ## Concrete sample data used by witnesses and counterexamples -/

/-- Field access in a JSON object body. -/
def jfield (j : Json) (k : String) : Option Json :=
  match j with
  | .obj l => l.lookup k
  | _ => none

/-- An empty database. -/
def dbEmpty : DB := ⟨[], [], 1, 1⟩

/-- A user with id 2. -/
def userA : UserRow := ⟨2, some "Alice", some "Owner", none⟩

/-- A property with id 1 owned by user 2. -/
def propA : PropRow := ⟨1, 2, "A", "B", "apartment", "Paris", 1, some "[]", 10, 10⟩

/-- One user, one property. -/
def dbA : DB := ⟨[userA], [propA], 3, 2⟩

/-- The property of `dbA` with the stored `rooms_details` text `"5"`:
well-formed JSON that is not a list. -/
def propNum : PropRow := ⟨1, 2, "A", "B", "apartment", "Paris", 1, some "5", 10, 10⟩

/-! ## C1 -/

/-- C1, counterexample: fetching a nonexistent user id yields 404, but the
body is the generic `{"error": "not found"}` from `abort(404)`, not
`{"error": "user not found"}` as the claim states. -/
theorem C1_counterexample :
    (get_user dbEmpty 99).status = 404 ∧
    (get_user dbEmpty 99).body = errJ "not found" ∧
    errJ "not found" ≠ errJ "user not found" := by
  refine ⟨rfl, rfl, fun h => ?_⟩
  simp [errJ] at h

/-- C1, amended: a nonexistent property id yields 404 with body
`{"error": "property not found"}`, while a nonexistent user id yields 404
with the generic body `{"error": "not found"}`. -/
theorem C1_amended (db : DB) (uid pid : Int)
    (hu : findUser db uid = none) (hp : fetch_property db pid = none) :
    get_user db uid = ⟨404, errJ "not found"⟩ ∧
    retrieve_property db pid = ⟨404, errJ "property not found"⟩ := by
  constructor
  · simp [get_user, hu]
  · simp [retrieve_property, hp]

/-- Witness for the amended C1 at a concrete database and ids. -/
theorem C1_amended_witness :
    get_user dbEmpty 99 = ⟨404, errJ "not found"⟩ ∧
    retrieve_property dbEmpty 99 = ⟨404, errJ "property not found"⟩ :=
  C1_amended dbEmpty 99 99 rfl rfl

/-! ## C2 -/

/-- C2, counterexample: the header values `"0"` and `"-5"` parse, so the
identity extractor does not collapse them to "no identity", and a handler
that requires identity answers 403 (ownership), not 401, to the caller
claiming id 0. -/
theorem C2_counterexample :
    get_current_user_id (some "0") = some 0 ∧
    get_current_user_id (some "-5") = some (-5) ∧
    (delete_property dbA (some "0") 1).2.status = 403 ∧
    (delete_property dbA (some "0") 1).2.status ≠ 401 := by
  exact ⟨rfl, rfl, rfl, by decide⟩

/-- C2, amended: the extractor yields no identity exactly when the header
is absent or fails to parse as an integer; a value parsing as zero or a
negative integer is passed through as the caller's identity, and a
mismatched-owner request with such an identity is answered 403, not
401. -/
theorem C2_amended :
    get_current_user_id none = none ∧
    (∀ s, pyIntStr s = none → get_current_user_id (some s) = none) ∧
    (∀ s n, pyIntStr s = some n → get_current_user_id (some s) = some n) ∧
    (∀ db s n pid jr, pyIntStr s = some n → n ≤ 0 →
      fetch_property db pid = some jr → jr.prop.owner_id ≠ n →
      (delete_property db (some s) pid).2.status = 403) := by
  refine ⟨rfl, fun s h => ?_, fun s n h => ?_, fun db s n pid jr hs hn hf ho => ?_⟩
  · simp [get_current_user_id, h]
  · simp [get_current_user_id, h]
  · simp [delete_property, get_current_user_id, hs, hf, ho]

/-- Witness for the amended C2 at the concrete header `"0"`. -/
theorem C2_amended_witness :
    (delete_property dbA (some "0") 1).2.status = 403 :=
  C2_amended.2.2.2 dbA "0" 0 1 ⟨propA, userA⟩ rfl (by decide) rfl (by decide)

/-! ## C3 -/

/-- C3, counterexample: the stored text `"5"` is well-formed JSON that is
not a list; the read side returns the number 5 for `rooms_details`, not a
list (and not the empty list). -/
theorem C3_counterexample :
    jfield (serialize_property ⟨propNum, userA⟩) "rooms_details" = some (.num 5) ∧
    (∀ es : List Json, Json.num 5 ≠ Json.arr es) := by
  exact ⟨rfl, fun es h => Json.noConfusion h⟩

/-- C3, amended: NULL or empty stored text and stored text that fails JSON
parsing degrade to `[]`; stored text that parses is returned as the parsed
value, which need not be a list; serialized lists round-trip. -/
theorem C3_amended :
    (∀ jr : JoinedRow, jr.prop.rooms_details = none →
      jfield (serialize_property jr) "rooms_details" = some (.arr [])) ∧
    (∀ jr : JoinedRow, jr.prop.rooms_details = some "" →
      jfield (serialize_property jr) "rooms_details" = some (.arr [])) ∧
    (∀ (jr : JoinedRow) (s : String), jr.prop.rooms_details = some s → s ≠ "" →
      loads s = none →
      jfield (serialize_property jr) "rooms_details" = some (.arr [])) ∧
    (∀ (jr : JoinedRow) (s : String) (v : Json), jr.prop.rooms_details = some s →
      s ≠ "" → loads s = some v →
      jfield (serialize_property jr) "rooms_details" = some v) ∧
    (∀ (jr : JoinedRow) (es : List Json),
      jr.prop.rooms_details = some (dumps (.arr es)) →
      jfield (serialize_property jr) "rooms_details" = some (.arr es)) := by
  have hget : ∀ jr : JoinedRow,
      jfield (serialize_property jr) "rooms_details"
        = some (parsedRooms jr.prop.rooms_details) := by
    intro jr
    simp [serialize_property, jfield, List.lookup]
  refine ⟨fun jr h => ?_, fun jr h => ?_, fun jr s h hne hl => ?_,
    fun jr s v h hne hl => ?_, fun jr es h => ?_⟩
  · rw [hget, h]; rfl
  · rw [hget, h]; rfl
  · rw [hget, h]; simp [parsedRooms, hne, hl]
  · rw [hget, h]; simp [parsedRooms, hne, hl]
  · rw [hget, h]
    have hne : dumps (.arr es) ≠ "" := by
      obtain ⟨c, cs, hrend, -, -⟩ := render_head (.arr es)
      simp [dumps, hrend]
      intro hx
      exact absurd (congrArg String.data hx) (by simp)
    simp [parsedRooms, hne, loads_dumps]

/-- Witness for the amended C3 at concrete stored texts. -/
theorem C3_amended_witness :
    jfield (serialize_property ⟨propA, userA⟩) "rooms_details" = some (.arr []) :=
  C3_amended.2.2.2.2 ⟨propA, userA⟩ [] rfl

/-! ## C4 -/

/-- C4: with a valid identity differing from the property's owner, update
answers 403 and leaves the database unchanged, for every request body;
the ownership check precedes any payload validation. -/
theorem C4_ownership_before_payload (db : DB) (now : Nat) (hdr : Option String)
    (pid : Int) (body : Option (List (String × Json))) (uid : Int) (jr : JoinedRow)
    (hid : get_current_user_id hdr = some uid)
    (hfetch : fetch_property db pid = some jr)
    (hown : jr.prop.owner_id ≠ uid) :
    update_property db now hdr pid body
      = (db, ⟨403, errJ "you can only edit your own properties"⟩) := by
  simp [update_property, hid, hfetch, hown]

/-- Witness for C4: a mismatched owner with an invalid payload still gets
403 with no write. -/
theorem C4_witness :
    update_property dbA 99 (some "1") 1 (some [("name", Json.null)])
      = (dbA, ⟨403, errJ "you can only edit your own properties"⟩) :=
  C4_ownership_before_payload dbA 99 (some "1") 1 (some [("name", Json.null)]) 1
    ⟨propA, userA⟩ rfl rfl (by decide)


/-! ## C5 -/

/-- The error statuses the claim speaks about. -/
def errStatus (s : Nat) : Prop := s = 400 ∨ s = 401 ∨ s = 403 ∨ s = 404

/-- C5: every mutating handler that answers 400/401/403/404 leaves the
database unchanged, and a delete answered 403 leaves the row still
retrievable (200) afterwards. -/
theorem C5_no_write_on_error (db : DB) (now : Nat) (hdr : Option String)
    (uid pid : Int) (bodyU bodyP : Option (List (String × Json))) :
    (errStatus (create_user db bodyU).2.status → (create_user db bodyU).1 = db) ∧
    (errStatus (update_user db hdr uid bodyU).2.status →
      (update_user db hdr uid bodyU).1 = db) ∧
    (errStatus (create_property db now hdr bodyP).2.status →
      (create_property db now hdr bodyP).1 = db) ∧
    (errStatus (update_property db now hdr pid bodyP).2.status →
      (update_property db now hdr pid bodyP).1 = db) ∧
    (errStatus (delete_property db hdr pid).2.status →
      (delete_property db hdr pid).1 = db) ∧
    ((delete_property db hdr pid).2.status = 403 →
      (retrieve_property (delete_property db hdr pid).1 pid).status = 200) := by
  refine ⟨?_, ?_, ?_, ?_, ?_, ?_⟩
  · unfold create_user
    try dsimp only
    repeat' split
    all_goals first
      | (intro _; rfl)
      | (intro h; simp [errStatus] at h)
  · unfold update_user
    try dsimp only
    repeat' split
    all_goals first
      | (intro _; rfl)
      | (intro h; simp [errStatus] at h)
  · unfold create_property
    try dsimp only
    repeat' split
    all_goals first
      | (intro _; rfl)
      | (intro h; simp [errStatus] at h)
  · unfold update_property
    try dsimp only
    repeat' split
    all_goals first
      | (intro _; rfl)
      | (intro h; simp [errStatus] at h)
  · unfold delete_property
    try dsimp only
    repeat' split
    all_goals first
      | (intro _; rfl)
      | (intro h; simp [errStatus] at h)
  · unfold delete_property
    repeat' split
    all_goals intro h
    all_goals simp_all [retrieve_property]


/-- Witness for C5: a delete rejected 403 leaves the database unchanged
and the row still retrievable. -/
theorem C5_witness :
    (delete_property dbA (some "1") 1).1 = dbA ∧
    (retrieve_property (delete_property dbA (some "1") 1).1 1).status = 200 :=
  ⟨(C5_no_write_on_error dbA 0 (some "1") 1 1 none none).2.2.2.2.1
      (Or.inr (Or.inr (Or.inl rfl))),
   (C5_no_write_on_error dbA 0 (some "1") 1 1 none none).2.2.2.2.2 rfl⟩


/-- Clamping at 0 is the identity on cast lengths. -/
theorem max0_natCast (k : Nat) : (0 : Int) ⊔ (k : Int) = (k : Int) :=
  max_eq_right (by positivity)

/-- C6: rooms_count handling in the shared validation routine: a present
value that does not parse as an integer makes the routine fail; a parsed
value is clamped at 0; an absent value defaults to the normalized
rooms_details length when details were supplied, and to 0 when both are
absent in non-partial mode. -/
theorem C6_rooms_count (payload : List (String × Json)) (part : Bool) :
    ((∃ v, payload.lookup "rooms_count" = some v ∧ pyInt v = none) →
      ∃ e, extract_property_payload payload part = .error e) ∧
    (∀ f, extract_property_payload payload part = .ok f →
      (∀ v n, payload.lookup "rooms_count" = some v → pyInt v = some n →
        f.rooms_count = some (max 0 n)) ∧
      (∀ es, payload.lookup "rooms_count" = none →
        payload.lookup "rooms_details" = some (.arr es) →
        f.rooms_count = some (es.length : Int)) ∧
      (payload.lookup "rooms_count" = none →
        (payload.lookup "rooms_details" = some .null ∨
         payload.lookup "rooms_details" = some (.str "")) →
        f.rooms_count = some 0) ∧
      (payload.lookup "rooms_count" = none →
        payload.lookup "rooms_details" = none → part = false →
        f.rooms_count = some 0)) := by
  constructor
  · rintro ⟨v, hv, hpi⟩
    unfold extract_property_payload
    simp only [bind, Except.bind]
    repeat' split
    all_goals first
      | exact ⟨_, rfl⟩
      | (exfalso; simp_all)
  · intro f hf
    unfold extract_property_payload at hf
    simp only [bind, Except.bind] at hf
    repeat' split at hf
    all_goals first
      | (exfalso; simp_all; done)
      | (injection hf with hf
         subst hf
         refine ⟨fun v n hv hpi => ?_, fun es hrc hrd => ?_,
           fun hrc hrd => ?_, fun hrc hrd hp => ?_⟩ <;>
           (simp_all [pyInt, max0_natCast]
            repeat (casesm* _ ∧ _ ; subst_vars; simp_all [pyInt, max0_natCast])
            all_goals (first
              | omega
              | (rcases hrd with hrd | hrd <;> simp_all [pyInt]))))


/-- Witness for C6: an unparseable rooms_count makes the routine fail, and
a parsed negative value is clamped to 0. -/
theorem C6_witness :
    (∃ e, extract_property_payload [("rooms_count", Json.str "abc")] true
      = .error e) ∧
    (Fields.mk none none none none none (some 0)).rooms_count
      = some (max 0 (-3)) :=
  ⟨(C6_rooms_count [("rooms_count", Json.str "abc")] true).1 ⟨Json.str "abc", rfl, rfl⟩,
   ((C6_rooms_count [("rooms_count", Json.num (-3))] true).2
      (Fields.mk none none none none none (some 0)) (by rfl)).1
      (Json.num (-3)) (-3) rfl rfl⟩


/-! ## C7 and C8: creation and update invariants -/

/-- Generated primary keys stay below the generator counters. -/
def DB.WF (db : DB) : Prop :=
  (∀ p ∈ db.props, p.id < db.nextProp) ∧ (∀ u ∈ db.users, u.id < db.nextUser)

theorem find?_append_none {α} (l1 l2 : List α) (p : α → Bool)
    (h : ∀ a ∈ l1, p a = false) : (l1 ++ l2).find? p = l2.find? p := by
  induction l1 with
  | nil => rfl
  | cons a l ih =>
    simp only [List.cons_append, List.find?, h a (by simp)]
    exact ih (fun b hb => h b (by simp [hb]))

theorem find?_map_pres {α} (g : α → α) (p : α → Bool) (l : List α)
    (hg : ∀ a, p (g a) = p a) :
    (l.map g).find? p = (l.find? p).map g := by
  induction l with
  | nil => rfl
  | cons a l ih =>
    simp only [List.map_cons, List.find?, hg a]
    cases hpa : p a <;> simp [ih]

theorem findProp_insert (db : DB) (row : PropRow)
    (hwf : ∀ p ∈ db.props, p.id < db.nextProp) (hrow : row.id = db.nextProp) :
    (db.props ++ [row]).find? (fun p => p.id == db.nextProp) = some row := by
  rw [find?_append_none]
  · simp [List.find?, hrow]
  · intro a ha
    have := hwf a ha
    simp only [beq_eq_false_iff_ne, ne_eq]
    omega

/-- On success the extraction stores exactly the serialization of the
supplied rooms_details list. -/
theorem extract_rd (payload : List (String × Json)) (part : Bool) (f : Fields)
    (es : List Json)
    (hrd : payload.lookup "rooms_details" = some (.arr es))
    (hf : extract_property_payload payload part = .ok f) :
    f.rooms_details = some (dumps (.arr es)) := by
  unfold extract_property_payload at hf
  simp only [bind, Except.bind] at hf
  repeat' split at hf
  all_goals first
    | (exfalso; simp_all; done)
    | (injection hf with hf
       subst hf
       simp_all
       repeat (casesm* _ ∧ _ ; subst_vars; simp_all))



/-- A rendered value is never the empty string. -/
theorem dumps_ne_empty (v : Json) : dumps v ≠ "" := by
  obtain ⟨c, cs, hrend, -, -⟩ := render_head v
  simp only [dumps, hrend]
  intro hx
  exact absurd (congrArg String.data hx) (by simp)

/-- Reading back a stored list serialization gives the list. -/
theorem parsedRooms_dumps (es : List Json) :
    parsedRooms (some (dumps (.arr es))) = .arr es := by
  simp [parsedRooms, dumps_ne_empty (.arr es), loads_dumps]

/-- C7: the rooms_details list of a successful create is returned verbatim
by the subsequent get of the new row. -/
theorem C7_rooms_roundtrip (db : DB) (now : Nat) (hdr : Option String)
    (body : List (String × Json)) (es : List Json)
    (hwf : DB.WF db)
    (hrd : body.lookup "rooms_details" = some (.arr es))
    (h201 : (create_property db now hdr (some body)).2.status = 201) :
    (retrieve_property (create_property db now hdr (some body)).1 db.nextProp).status
      = 200 ∧
    ∃ pj, jfield (retrieve_property
        (create_property db now hdr (some body)).1 db.nextProp).body "property"
      = some pj ∧ jfield pj "rooms_details" = some (.arr es) := by
  unfold create_property at h201 ⊢
  match hg : get_current_user_id hdr with
  | none => rw [hg] at h201; simp at h201
  | some uid =>
  rw [hg] at h201
  try dsimp only [Option.getD] at h201 ⊢
  match hex : extract_property_payload body false with
  | .error e => rw [hex] at h201; simp at h201
  | .ok f =>
  rw [hex] at h201
  try dsimp only [Option.getD] at h201 ⊢
  match hu : findUser db uid with
  | none => rw [hu] at h201; simp at h201
  | some u =>
  rw [hu] at h201
  try dsimp only [Option.getD] at h201 ⊢
  have hfrd : f.rooms_details = some (dumps (.arr es)) :=
    extract_rd body false f es hrd hex
  obtain ⟨fn, fd, ft, fc, frd2, frc⟩ := f
  split at h201
  · rename_i nm ds pt ct rd rc h1 h2 h3 h4 h5 h6
    subst h1 h2 h3 h4 h5 h6
    try dsimp only
    have hrdd : rd = dumps (.arr es) := by
      injection hfrd
    have hfp : ((db.props ++ [(⟨db.nextProp, uid, nm, ds, pt, ct, rc, some rd,
          now, now⟩ : PropRow)]).find? (fun p => p.id == db.nextProp))
        = some ⟨db.nextProp, uid, nm, ds, pt, ct, rc, some rd, now, now⟩ :=
      findProp_insert db _ hwf.1 rfl
    have hfetch : fetch_property
        { db with props := db.props ++ [⟨db.nextProp, uid, nm, ds, pt, ct, rc,
            some rd, now, now⟩], nextProp := db.nextProp + 1 } db.nextProp
        = some ⟨⟨db.nextProp, uid, nm, ds, pt, ct, rc, some rd, now, now⟩, u⟩ := by
      simp only [fetch_property, findProp]
      rw [hfp]
      simpa [findUser] using congrArg (Option.map (fun w =>
        (⟨⟨db.nextProp, uid, nm, ds, pt, ct, rc, some rd, now, now⟩, w⟩ : JoinedRow))) hu
    rw [hfetch]
    try dsimp only
    simp only [retrieve_property, hfetch]
    refine ⟨by trivial, serialize_property ⟨⟨db.nextProp, uid, nm, ds, pt, ct, rc,
      some rd, now, now⟩, u⟩, ?_, ?_⟩
    · simp [jfield]
    · simp [serialize_property, jfield, hrdd, parsedRooms_dumps, List.lookup]
  · simp at h201



theorem applyFields_id (p : PropRow) (f : Fields) (now : Nat) :
    (applyFields p f now).id = p.id := rfl

theorem applyFields_owner (p : PropRow) (f : Fields) (now : Nat) :
    (applyFields p f now).owner_id = p.owner_id := rfl

/-- A successful join pins down the bare row lookup. -/
theorem fetch_findProp (db : DB) (pid : Int) (jr : JoinedRow)
    (h : fetch_property db pid = some jr) : findProp db pid = some jr.prop := by
  unfold fetch_property at h
  match hp : findProp db pid with
  | none => rw [hp] at h; simp at h
  | some p =>
    rw [hp] at h
    dsimp only at h
    match hu : findUser db p.owner_id with
    | none => rw [hu] at h; simp at h
    | some u =>
      rw [hu] at h
      simp only [Option.map, Option.some.injEq] at h
      subst h
      rfl

/-- C8: a successful create stores the header identity as owner_id, and a
successful update leaves owner_id unchanged (the shared extraction routine
never emits an owner_id column). -/
theorem C8_owner_immutable :
    (∀ (db : DB) (now : Nat) (hdr : Option String)
        (body : Option (List (String × Json))), DB.WF db →
      (create_property db now hdr body).2.status = 201 →
      ∃ uid, get_current_user_id hdr = some uid ∧
        ∃ q, findProp (create_property db now hdr body).1 db.nextProp = some q ∧
          q.owner_id = uid) ∧
    (∀ (db : DB) (now : Nat) (hdr : Option String) (pid : Int)
        (body : Option (List (String × Json))) (jr : JoinedRow),
      fetch_property db pid = some jr →
      (update_property db now hdr pid body).2.status = 200 →
      ∃ q, findProp (update_property db now hdr pid body).1 pid = some q ∧
        q.owner_id = jr.prop.owner_id) := by
  constructor
  · intro db now hdr body hwf h201
    unfold create_property at h201 ⊢
    match hg : get_current_user_id hdr with
    | none => rw [hg] at h201; simp at h201
    | some uid =>
    rw [hg] at h201
    try dsimp only at h201 ⊢
    refine ⟨uid, rfl, ?_⟩
    match hex : extract_property_payload (body.getD []) false with
    | .error e => rw [hex] at h201; simp at h201
    | .ok f =>
    rw [hex] at h201
    try dsimp only at h201 ⊢
    match hu : findUser db uid with
    | none => rw [hu] at h201; simp at h201
    | some u =>
    rw [hu] at h201
    try dsimp only at h201 ⊢
    obtain ⟨fn, fd, ft, fc, frd2, frc⟩ := f
    split at h201
    · rename_i nm ds pt ct rd rc h1 h2 h3 h4 h5 h6
      subst h1 h2 h3 h4 h5 h6
      try dsimp only
      split
      all_goals exact ⟨_, findProp_insert db _ hwf.1 rfl, rfl⟩
    · simp at h201
  · intro db now hdr pid body jr hfetch h200
    unfold update_property at h200 ⊢
    match hg : get_current_user_id hdr with
    | none => rw [hg] at h200; simp at h200
    | some uid =>
    rw [hg] at h200
    try dsimp only at h200 ⊢
    rw [hfetch] at h200 ⊢
    try dsimp only at h200 ⊢
    split at h200
    · simp at h200
    · rename_i hown
      rw [if_neg hown]
      match hex : extract_property_payload (body.getD []) true with
      | .error e => rw [hex] at h200; simp at h200
      | .ok f =>
      rw [hex] at h200
      try dsimp only at h200 ⊢
      split at h200
      · simp at h200
      · rename_i hempty
        rw [if_neg hempty]
        split at h200
        · simp at h200
        · rename_i htext
          rw [if_neg htext]
          try dsimp only
          have hpres : ∀ a : PropRow,
              ((if a.id == pid then applyFields a f now else a).id == pid)
                = (a.id == pid) := by
            intro a
            by_cases h : (a.id == pid) = true
            · simp [h, applyFields_id]
            · simp [h]
          have hmap := find?_map_pres
            (fun a => if a.id == pid then applyFields a f now else a)
            (fun p => p.id == pid) db.props hpres
          have hfp := fetch_findProp db pid jr hfetch
          unfold findProp at hfp
          refine ⟨if jr.prop.id == pid then applyFields jr.prop f now else jr.prop,
            ?_, ?_⟩
          · split
            all_goals
              (simp only [findProp]
               rw [hmap, hfp]
               rfl)
          · by_cases h : (jr.prop.id == pid) = true
            · simp [h, applyFields_owner]
            · simp [h]


/-- A single-user database whose next property id is 1. -/
def dbB : DB := ⟨[⟨1, some "John", some "Doe", none⟩], [], 2, 1⟩

/-- A well-formed room descriptor. -/
def roomObj : Json := .obj [("type", .str "bedroom"), ("size", .num 15)]

/-- A fully valid create payload carrying one room. -/
def bodyB : List (String × Json) :=
  [("name", .str "A"), ("description", .str "B"),
   ("property_type", .str "apartment"), ("city", .str "Paris"),
   ("rooms_details", .arr [roomObj])]

/-- Witness for C7 at a concrete create followed by a get. -/
theorem C7_witness :
    (retrieve_property (create_property dbB 5 (some "1") (some bodyB)).1
      dbB.nextProp).status = 200 ∧
    ∃ pj, jfield (retrieve_property (create_property dbB 5 (some "1")
        (some bodyB)).1 dbB.nextProp).body "property" = some pj ∧
      jfield pj "rooms_details" = some (.arr [roomObj]) :=
  C7_rooms_roundtrip dbB 5 (some "1") bodyB [roomObj] ⟨by decide, by decide⟩ rfl rfl

/-- Witness for C8 at a concrete create. -/
theorem C8_witness :
    ∃ uid, get_current_user_id (some "1") = some uid ∧
      ∃ q, findProp (create_property dbB 5 (some "1") (some bodyB)).1
          dbB.nextProp = some q ∧ q.owner_id = uid :=
  C8_owner_immutable.1 dbB 5 (some "1") (some bodyB) ⟨by decide, by decide⟩ rfl

end PropMgmt

namespace PropMgmt

/-- The user row rewrite a successful PATCH /users applies, located through
the primary key. -/
theorem findUser_update (db : DB) (uid : Int) (row : UserRow)
    (fn ln : Option String) (dob : Option DateV)
    (hrow : findUser db uid = some row) :
    findUser { db with users := db.users.map (fun u =>
        if u.id == uid then
          { u with first_name := fn, last_name := ln, date_of_birth := dob }
        else u) } uid
      = some { row with first_name := fn, last_name := ln, date_of_birth := dob } := by
  have hpres : ∀ a : UserRow,
      (((if a.id == uid then
        ({ a with first_name := fn, last_name := ln, date_of_birth := dob } : UserRow)
        else a)).id == uid) = (a.id == uid) := by
    intro a
    by_cases h : (a.id == uid) = true
    · simp [h]
    · simp [h]
  unfold findUser at hrow ⊢
  have hid : (row.id == uid) = true := by
    have h := List.find?_some hrow
    simpa using h
  rw [find?_map_pres _ _ _ hpres, hrow]
  simp [Option.map, hid]

set_option maxHeartbeats 2000000 in
/-- C9: fields absent from a partial user update keep their stored values,
and an explicit null date_of_birth clears the field. -/
theorem C9_partial_user_update (db : DB) (hdr : Option String) (uid : Int)
    (body : List (String × Json)) (row : UserRow)
    (hrow : findUser db uid = some row)
    (h200 : (update_user db hdr uid (some body)).2.status = 200) :
    ∃ row2, findUser (update_user db hdr uid (some body)).1 uid = some row2 ∧
      (body.lookup "first_name" = none → row2.first_name = row.first_name) ∧
      (body.lookup "last_name" = none → row2.last_name = row.last_name) ∧
      (body.lookup "date_of_birth" = none →
        row2.date_of_birth = row.date_of_birth) ∧
      (body.lookup "date_of_birth" = some .null → row2.date_of_birth = none) := by
  unfold update_user at h200 ⊢
  match hg : get_current_user_id hdr with
  | none => rw [hg] at h200; simp at h200
  | some cu =>
  rw [hg] at h200
  try dsimp only at h200 ⊢
  split at h200
  · simp at h200
  · rename_i hcu
    rw [if_neg hcu]
    split at h200
    · simp at h200
    · rename_i hany
      rw [if_neg hany]
      rw [hrow] at h200 ⊢
      try dsimp only at h200 ⊢
      match hdob : body.lookup "date_of_birth" with
      | some (.bool b) => rw [hdob] at h200; simp at h200
      | some (.num n) => rw [hdob] at h200; simp at h200
      | some (.arr l) => rw [hdob] at h200; simp at h200
      | some (.obj o) => rw [hdob] at h200; simp at h200
      | none =>
        rw [hdob] at h200
        try dsimp only at h200 ⊢
        match hfn : body.lookup "first_name" with
        | some (.bool b) => rw [hfn] at h200; simp at h200
        | some (.num n) => rw [hfn] at h200; simp at h200
        | some (.arr l) => rw [hfn] at h200; simp at h200
        | some (.obj o) => rw [hfn] at h200; simp at h200
        | none =>
          rw [hfn] at h200
          try dsimp only at h200 ⊢
          match hln : body.lookup "last_name" with
          | some (.bool b) => rw [hln] at h200; simp at h200
          | some (.num n) => rw [hln] at h200; simp at h200
          | some (.arr l) => rw [hln] at h200; simp at h200
          | some (.obj o) => rw [hln] at h200; simp at h200
          | none =>
            rw [hln] at h200
            try dsimp only at h200 ⊢
            exact ⟨_, findUser_update db uid row (row.first_name) (row.last_name) (row.date_of_birth) hrow,
              by intro h; simp_all, by intro h; simp_all,
              by intro h; simp_all, by intro h; simp_all⟩
          | some .null =>
            rw [hln] at h200
            try dsimp only at h200 ⊢
            exact ⟨_, findUser_update db uid row (row.first_name) (none) (row.date_of_birth) hrow,
              by intro h; simp_all, by intro h; simp_all,
              by intro h; simp_all, by intro h; simp_all⟩
          | some (.str s2) =>
            rw [hln] at h200
            try dsimp only at h200 ⊢
            exact ⟨_, findUser_update db uid row (row.first_name) (some s2) (row.date_of_birth) hrow,
              by intro h; simp_all, by intro h; simp_all,
              by intro h; simp_all, by intro h; simp_all⟩
        | some .null =>
          rw [hfn] at h200
          try dsimp only at h200 ⊢
          match hln : body.lookup "last_name" with
          | some (.bool b) => rw [hln] at h200; simp at h200
          | some (.num n) => rw [hln] at h200; simp at h200
          | some (.arr l) => rw [hln] at h200; simp at h200
          | some (.obj o) => rw [hln] at h200; simp at h200
          | none =>
            rw [hln] at h200
            try dsimp only at h200 ⊢
            exact ⟨_, findUser_update db uid row (none) (row.last_name) (row.date_of_birth) hrow,
              by intro h; simp_all, by intro h; simp_all,
              by intro h; simp_all, by intro h; simp_all⟩
          | some .null =>
            rw [hln] at h200
            try dsimp only at h200 ⊢
            exact ⟨_, findUser_update db uid row (none) (none) (row.date_of_birth) hrow,
              by intro h; simp_all, by intro h; simp_all,
              by intro h; simp_all, by intro h; simp_all⟩
          | some (.str s2) =>
            rw [hln] at h200
            try dsimp only at h200 ⊢
            exact ⟨_, findUser_update db uid row (none) (some s2) (row.date_of_birth) hrow,
              by intro h; simp_all, by intro h; simp_all,
              by intro h; simp_all, by intro h; simp_all⟩
        | some (.str s1) =>
          rw [hfn] at h200
          try dsimp only at h200 ⊢
          match hln : body.lookup "last_name" with
          | some (.bool b) => rw [hln] at h200; simp at h200
          | some (.num n) => rw [hln] at h200; simp at h200
          | some (.arr l) => rw [hln] at h200; simp at h200
          | some (.obj o) => rw [hln] at h200; simp at h200
          | none =>
            rw [hln] at h200
            try dsimp only at h200 ⊢
            exact ⟨_, findUser_update db uid row (some s1) (row.last_name) (row.date_of_birth) hrow,
              by intro h; simp_all, by intro h; simp_all,
              by intro h; simp_all, by intro h; simp_all⟩
          | some .null =>
            rw [hln] at h200
            try dsimp only at h200 ⊢
            exact ⟨_, findUser_update db uid row (some s1) (none) (row.date_of_birth) hrow,
              by intro h; simp_all, by intro h; simp_all,
              by intro h; simp_all, by intro h; simp_all⟩
          | some (.str s2) =>
            rw [hln] at h200
            try dsimp only at h200 ⊢
            exact ⟨_, findUser_update db uid row (some s1) (some s2) (row.date_of_birth) hrow,
              by intro h; simp_all, by intro h; simp_all,
              by intro h; simp_all, by intro h; simp_all⟩
      | some .null =>
        rw [hdob] at h200
        try dsimp only at h200 ⊢
        match hfn : body.lookup "first_name" with
        | some (.bool b) => rw [hfn] at h200; simp at h200
        | some (.num n) => rw [hfn] at h200; simp at h200
        | some (.arr l) => rw [hfn] at h200; simp at h200
        | some (.obj o) => rw [hfn] at h200; simp at h200
        | none =>
          rw [hfn] at h200
          try dsimp only at h200 ⊢
          match hln : body.lookup "last_name" with
          | some (.bool b) => rw [hln] at h200; simp at h200
          | some (.num n) => rw [hln] at h200; simp at h200
          | some (.arr l) => rw [hln] at h200; simp at h200
          | some (.obj o) => rw [hln] at h200; simp at h200
          | none =>
            rw [hln] at h200
            try dsimp only at h200 ⊢
            exact ⟨_, findUser_update db uid row (row.first_name) (row.last_name) (none) hrow,
              by intro h; simp_all, by intro h; simp_all,
              by intro h; simp_all, by intro h; simp_all⟩
          | some .null =>
            rw [hln] at h200
            try dsimp only at h200 ⊢
            exact ⟨_, findUser_update db uid row (row.first_name) (none) (none) hrow,
              by intro h; simp_all, by intro h; simp_all,
              by intro h; simp_all, by intro h; simp_all⟩
          | some (.str s2) =>
            rw [hln] at h200
            try dsimp only at h200 ⊢
            exact ⟨_, findUser_update db uid row (row.first_name) (some s2) (none) hrow,
              by intro h; simp_all, by intro h; simp_all,
              by intro h; simp_all, by intro h; simp_all⟩
        | some .null =>
          rw [hfn] at h200
          try dsimp only at h200 ⊢
          match hln : body.lookup "last_name" with
          | some (.bool b) => rw [hln] at h200; simp at h200
          | some (.num n) => rw [hln] at h200; simp at h200
          | some (.arr l) => rw [hln] at h200; simp at h200
          | some (.obj o) => rw [hln] at h200; simp at h200
          | none =>
            rw [hln] at h200
            try dsimp only at h200 ⊢
            exact ⟨_, findUser_update db uid row (none) (row.last_name) (none) hrow,
              by intro h; simp_all, by intro h; simp_all,
              by intro h; simp_all, by intro h; simp_all⟩
          | some .null =>
            rw [hln] at h200
            try dsimp only at h200 ⊢
            exact ⟨_, findUser_update db uid row (none) (none) (none) hrow,
              by intro h; simp_all, by intro h; simp_all,
              by intro h; simp_all, by intro h; simp_all⟩
          | some (.str s2) =>
            rw [hln] at h200
            try dsimp only at h200 ⊢
            exact ⟨_, findUser_update db uid row (none) (some s2) (none) hrow,
              by intro h; simp_all, by intro h; simp_all,
              by intro h; simp_all, by intro h; simp_all⟩
        | some (.str s1) =>
          rw [hfn] at h200
          try dsimp only at h200 ⊢
          match hln : body.lookup "last_name" with
          | some (.bool b) => rw [hln] at h200; simp at h200
          | some (.num n) => rw [hln] at h200; simp at h200
          | some (.arr l) => rw [hln] at h200; simp at h200
          | some (.obj o) => rw [hln] at h200; simp at h200
          | none =>
            rw [hln] at h200
            try dsimp only at h200 ⊢
            exact ⟨_, findUser_update db uid row (some s1) (row.last_name) (none) hrow,
              by intro h; simp_all, by intro h; simp_all,
              by intro h; simp_all, by intro h; simp_all⟩
          | some .null =>
            rw [hln] at h200
            try dsimp only at h200 ⊢
            exact ⟨_, findUser_update db uid row (some s1) (none) (none) hrow,
              by intro h; simp_all, by intro h; simp_all,
              by intro h; simp_all, by intro h; simp_all⟩
          | some (.str s2) =>
            rw [hln] at h200
            try dsimp only at h200 ⊢
            exact ⟨_, findUser_update db uid row (some s1) (some s2) (none) hrow,
              by intro h; simp_all, by intro h; simp_all,
              by intro h; simp_all, by intro h; simp_all⟩
      | some (.str ds) =>
        rw [hdob] at h200
        try dsimp only at h200 ⊢
        match hdp : parseDob ds with
        | none => rw [hdp] at h200; simp at h200
        | some d =>
          rw [hdp] at h200
          try dsimp only at h200 ⊢
          match hfn : body.lookup "first_name" with
          | some (.bool b) => rw [hfn] at h200; simp at h200
          | some (.num n) => rw [hfn] at h200; simp at h200
          | some (.arr l) => rw [hfn] at h200; simp at h200
          | some (.obj o) => rw [hfn] at h200; simp at h200
          | none =>
            rw [hfn] at h200
            try dsimp only at h200 ⊢
            match hln : body.lookup "last_name" with
            | some (.bool b) => rw [hln] at h200; simp at h200
            | some (.num n) => rw [hln] at h200; simp at h200
            | some (.arr l) => rw [hln] at h200; simp at h200
            | some (.obj o) => rw [hln] at h200; simp at h200
            | none =>
              rw [hln] at h200
              try dsimp only at h200 ⊢
              exact ⟨_, findUser_update db uid row (row.first_name) (row.last_name) (some d) hrow,
                by intro h; simp_all, by intro h; simp_all,
                by intro h; simp_all, by intro h; simp_all⟩
            | some .null =>
              rw [hln] at h200
              try dsimp only at h200 ⊢
              exact ⟨_, findUser_update db uid row (row.first_name) (none) (some d) hrow,
                by intro h; simp_all, by intro h; simp_all,
                by intro h; simp_all, by intro h; simp_all⟩
            | some (.str s2) =>
              rw [hln] at h200
              try dsimp only at h200 ⊢
              exact ⟨_, findUser_update db uid row (row.first_name) (some s2) (some d) hrow,
                by intro h; simp_all, by intro h; simp_all,
                by intro h; simp_all, by intro h; simp_all⟩
          | some .null =>
            rw [hfn] at h200
            try dsimp only at h200 ⊢
            match hln : body.lookup "last_name" with
            | some (.bool b) => rw [hln] at h200; simp at h200
            | some (.num n) => rw [hln] at h200; simp at h200
            | some (.arr l) => rw [hln] at h200; simp at h200
            | some (.obj o) => rw [hln] at h200; simp at h200
            | none =>
              rw [hln] at h200
              try dsimp only at h200 ⊢
              exact ⟨_, findUser_update db uid row (none) (row.last_name) (some d) hrow,
                by intro h; simp_all, by intro h; simp_all,
                by intro h; simp_all, by intro h; simp_all⟩
            | some .null =>
              rw [hln] at h200
              try dsimp only at h200 ⊢
              exact ⟨_, findUser_update db uid row (none) (none) (some d) hrow,
                by intro h; simp_all, by intro h; simp_all,
                by intro h; simp_all, by intro h; simp_all⟩
            | some (.str s2) =>
              rw [hln] at h200
              try dsimp only at h200 ⊢
              exact ⟨_, findUser_update db uid row (none) (some s2) (some d) hrow,
                by intro h; simp_all, by intro h; simp_all,
                by intro h; simp_all, by intro h; simp_all⟩
          | some (.str s1) =>
            rw [hfn] at h200
            try dsimp only at h200 ⊢
            match hln : body.lookup "last_name" with
            | some (.bool b) => rw [hln] at h200; simp at h200
            | some (.num n) => rw [hln] at h200; simp at h200
            | some (.arr l) => rw [hln] at h200; simp at h200
            | some (.obj o) => rw [hln] at h200; simp at h200
            | none =>
              rw [hln] at h200
              try dsimp only at h200 ⊢
              exact ⟨_, findUser_update db uid row (some s1) (row.last_name) (some d) hrow,
                by intro h; simp_all, by intro h; simp_all,
                by intro h; simp_all, by intro h; simp_all⟩
            | some .null =>
              rw [hln] at h200
              try dsimp only at h200 ⊢
              exact ⟨_, findUser_update db uid row (some s1) (none) (some d) hrow,
                by intro h; simp_all, by intro h; simp_all,
                by intro h; simp_all, by intro h; simp_all⟩
            | some (.str s2) =>
              rw [hln] at h200
              try dsimp only at h200 ⊢
              exact ⟨_, findUser_update db uid row (some s1) (some s2) (some d) hrow,
                by intro h; simp_all, by intro h; simp_all,
                by intro h; simp_all, by intro h; simp_all⟩

/-- Concrete run of C9: user 1 patches itself with only a last_name. -/
theorem C9_witness :
    (findUser dbB 1 = some ⟨1, some "John", some "Doe", none⟩) ∧
    ((update_user dbB (some "1") 1
        (some [("last_name", Json.str "X")])).2.status = 200) ∧
    (∃ row2,
      findUser (update_user dbB (some "1") 1
          (some [("last_name", Json.str "X")])).1 1 = some row2 ∧
      ([("last_name", Json.str "X")].lookup "first_name" = none →
        row2.first_name
          = (⟨1, some "John", some "Doe", none⟩ : UserRow).first_name) ∧
      ([("last_name", Json.str "X")].lookup "last_name" = none →
        row2.last_name
          = (⟨1, some "John", some "Doe", none⟩ : UserRow).last_name) ∧
      ([("last_name", Json.str "X")].lookup "date_of_birth" = none →
        row2.date_of_birth
          = (⟨1, some "John", some "Doe", none⟩ : UserRow).date_of_birth) ∧
      ([("last_name", Json.str "X")].lookup "date_of_birth" = some .null →
        row2.date_of_birth = none)) :=
  ⟨by rfl, by rfl,
    C9_partial_user_update dbB (some "1") 1 [("last_name", Json.str "X")]
      ⟨1, some "John", some "Doe", none⟩ (by rfl) (by rfl)⟩

end PropMgmt

namespace PropMgmt

/-- A user owning two properties in city `"X"`. -/
def userC : UserRow := ⟨1, some "O", none, none⟩

/-- First property in city `"X"`, created at 5. -/
def propC1 : PropRow := ⟨1, 1, "A", "B", "apartment", "X", 1, some "[]", 5, 5⟩

/-- Second property in city `"X"`, created at 9. -/
def propC2 : PropRow := ⟨2, 1, "C", "D", "house", "X", 2, some "[]", 9, 9⟩

/-- One user, two properties, both in city `"X"`. -/
def dbTwo : DB := ⟨[userC], [propC1, propC2], 2, 3⟩

/-- C10: refuted as stated. With `page_size=1`, `GET /properties?city=X`
returns one property although two rows match the city filter, so the
returned properties are not exactly those matching the filter. -/
theorem C10_counterexample :
    ((joinedRows dbTwo).filter (cityMatches "X")).length = 2 ∧
    ∃ l, jfield (list_properties dbTwo (some "X") none (some "1")).body
        "properties" = some (.arr l) ∧ l.length = 1 :=
  ⟨by rfl, _, by rfl, by rfl⟩

set_option maxHeartbeats 1000000 in
/-- C10 (amended): a missing or blank city yields the exact 400 response;
otherwise the response is 200 and the `properties` array serializes a
selection of joined rows, each matching the city filter case-insensitively,
sorted newest first; with default paging and at most 20 matches the
selection is a permutation of all matching rows. -/
theorem C10_amended (db : DB) (cityArg pageArg psArg : Option String) :
    (pyStrip (cityArg.getD "") = "" →
      list_properties db cityArg pageArg psArg
        = ⟨400, errJ "city query parameter is required"⟩) ∧
    (pyStrip (cityArg.getD "") ≠ "" →
      (list_properties db cityArg pageArg psArg).status = 200 ∧
      ∃ sel : List JoinedRow,
        jfield (list_properties db cityArg pageArg psArg).body "properties"
          = some (.arr (sel.map serialize_property)) ∧
        (∀ jr ∈ sel, cityMatches (pyStrip (cityArg.getD "")) jr = true) ∧
        sel.Pairwise newerFirst ∧
        (pageArg = none → psArg = none →
          ((joinedRows db).filter
            (cityMatches (pyStrip (cityArg.getD "")))).length ≤ 20 →
          sel.Perm ((joinedRows db).filter
            (cityMatches (pyStrip (cityArg.getD "")))))) := by
  constructor
  · intro h
    unfold list_properties
    rw [if_pos h]
  · intro h
    unfold list_properties
    rw [if_neg h]
    refine ⟨rfl, _, rfl, ?_, ?_, ?_⟩
    · intro jr hmem
      have h1 := (List.take_sublist _ _).subset hmem
      have h2 := (List.drop_sublist _ _).subset h1
      have h3 := (List.perm_insertionSort newerFirst _).subset h2
      exact (List.mem_filter.mp h3).2
    · exact List.Pairwise.sublist
        ((List.take_sublist _ _).trans (List.drop_sublist _ _))
        (List.sorted_insertionSort newerFirst _)
    · intro hp hps hlen
      subst hp hps
      have hlen2 : (((joinedRows db).filter
            (cityMatches (pyStrip (cityArg.getD "")))).insertionSort
              newerFirst).length ≤ 20 := by
        rw [(List.perm_insertionSort newerFirst _).length_eq]
        exact hlen
      simp only [pageOf]
      norm_num
      rw [show ((20 : Int)).toNat = 20 from rfl, List.take_of_length_le hlen2]
      exact List.perm_insertionSort newerFirst _

/-- Concrete run of C10 (amended): the property of `dbA` stored with city
"Paris" is selected for the query city "paris". -/
theorem C10_witness :
    pyStrip ((some "paris" : Option String).getD "") ≠ "" ∧
    ((list_properties dbA (some "paris") none none).status = 200 ∧
     ∃ sel : List JoinedRow,
       jfield (list_properties dbA (some "paris") none none).body "properties"
         = some (.arr (sel.map serialize_property)) ∧
       (∀ jr ∈ sel,
         cityMatches (pyStrip ((some "paris" : Option String).getD "")) jr
           = true) ∧
       sel.Pairwise newerFirst ∧
       ((none : Option String) = none → (none : Option String) = none →
         ((joinedRows dbA).filter
           (cityMatches (pyStrip ((some "paris" : Option String).getD "")))).length
             ≤ 20 →
         sel.Perm ((joinedRows dbA).filter
           (cityMatches (pyStrip ((some "paris" : Option String).getD "")))))) :=
  ⟨by decide, (C10_amended dbA (some "paris") none none).2 (by decide)⟩

end PropMgmt
